import Mathlib

/-!
Resource azurerm_api_management_api_operation_tag: Create / Read / Delete

A shallow embedding of
`internal/services/apimanagement/api_management_api_operation_tag_resource.go`.

* The three lifecycle functions are translated statement by statement.
* `pluginsdk.ResourceData` is the stored id plus a map from attribute keys to
  string values (`d.Get` of an unset string key yields the empty string).
* The remote `TagClient` is a parameter: four operations over an arbitrary
  remote state `σ`, each returning a response, a Go `error` (nil or a text)
  and the next remote state.
* The identifier codec (package `parse`) is a parameter (`Codec`); a concrete
  instance following the path grammar of the specification is `azureCodec`.
* Every effect of a lifecycle call (remote calls, `d.SetId`, `d.Set`) is
  recorded, in program order, in an event log.
* Contexts, deadlines and logging are not modelled.
-/

namespace ApiOperationTag

/-! ## Identifier records (package `parse`) -/

/-- Fields of `parse.ApiOperationId`. -/
structure ApiOperationId where
  SubscriptionId : String
  ResourceGroup : String
  ServiceName : String
  ApiName : String
  OperationName : String
deriving DecidableEq, Repr

/-- Fields of `parse.TagId`. -/
structure TagId where
  SubscriptionId : String
  ResourceGroup : String
  ServiceName : String
  Name : String
deriving DecidableEq, Repr

/-- Fields of `parse.ApiOperationTagId`, the value built by
`parse.NewApiOperationTagID`. -/
structure ApiOperationTagId where
  SubscriptionId : String
  ResourceGroup : String
  ServiceName : String
  ApiName : String
  OperationName : String
  TagName : String
deriving DecidableEq, Repr

/-- Fields of `parse.OperationTagId`, the value returned by
`parse.OperationTagID`. -/
structure OperationTagId where
  SubscriptionId : String
  ResourceGroup : String
  ServiceName : String
  ApiName : String
  OperationName : String
  TagName : String
deriving DecidableEq, Repr

/-- Modelled from the spec: `parse.NewApiOperationID` is not among the sources;
it re-derives the parent operation identifier from its five fields. -/
def NewApiOperationID (subscriptionId resourceGroup serviceName apiName operationName : String) :
    ApiOperationId :=
  ⟨subscriptionId, resourceGroup, serviceName, apiName, operationName⟩

/-- Modelled from the spec: `parse.NewTagID` is not among the sources; it derives
a tag identifier from `(subscription, resource group, service, name)`. -/
def NewTagID (subscriptionId resourceGroup serviceName name : String) : TagId :=
  ⟨subscriptionId, resourceGroup, serviceName, name⟩

/-- Modelled from the spec: `parse.NewApiOperationTagID` is not among the
sources; it derives the assignment identifier from `(subscription, resource
group, service, api name, operation name, tag name)`. -/
def NewApiOperationTagID
    (subscriptionId resourceGroup serviceName apiName operationName tagName : String) :
    ApiOperationTagId :=
  ⟨subscriptionId, resourceGroup, serviceName, apiName, operationName, tagName⟩

/-- The string side of package `parse`, which is not among the sources: the two
parsers used by the resource and the `ID()` methods of the three identifier
records. The lifecycle functions are parametric in it. -/
structure Codec where
  /-- Parser `parse.ApiOperationID`. -/
  ApiOperationID : String → Except String ApiOperationId
  /-- Parser `parse.OperationTagID`. -/
  OperationTagID : String → Except String OperationTagId
  /-- Method `ApiOperationId.ID()`. -/
  ApiOperationId_ID : ApiOperationId → String
  /-- Method `TagId.ID()`. -/
  TagId_ID : TagId → String
  /-- Method `ApiOperationTagId.ID()`. -/
  ApiOperationTagId_ID : ApiOperationTagId → String

/-! ## Remote client -/

/-- An `autorest.Response`: no HTTP response at all, or its status code. -/
abbrev Response := Option Nat

/-- Modelled from the spec: `utils.ResponseWasNotFound` is not among the
sources; it holds of a response object that carries the not-found status. -/
def ResponseWasNotFound (resp : Response) : Bool :=
  match resp with
  | some code => code == 404
  | none => false

/-- What a client operation hands back: the response, the Go `error` (`none`
is nil) and the remote state after the call. -/
structure Reply (σ : Type) where
  resp : Response
  err : Option String
  remote : σ

/-- The four operations of `ApiManagement.TagClient` used by the resource, over
a remote state `σ`. -/
structure TagClient (σ : Type) where
  /-- Operation `Get(ctx, resourceGroup, serviceName, tagId)` -/
  Get : σ → String → String → String → Reply σ
  /-- Operation `GetByOperation(ctx, resourceGroup, serviceName, apiName, operationName, tagName)` -/
  GetByOperation : σ → String → String → String → String → String → Reply σ
  /-- Operation `AssignToOperation(ctx, resourceGroup, serviceName, apiName, operationName, tagName)` -/
  AssignToOperation : σ → String → String → String → String → String → Reply σ
  /-- Operation `DetachFromOperation(ctx, resourceGroup, serviceName, apiName, operationName, tagName)` -/
  DetachFromOperation : σ → String → String → String → String → String → Reply σ

/-- The record `clients.Client.Account`. -/
structure Account where
  SubscriptionId : String

/-- The record `clients.Client.ApiManagement`. -/
structure ApiManagementClients (σ : Type) where
  TagClient : TagClient σ

/-- The part of `clients.Client` (the `meta` argument) the resource reads. -/
structure Client (σ : Type) where
  Account : Account
  ApiManagement : ApiManagementClients σ

/-! ## Resource data, errors, events -/

/-- Model of `pluginsdk.ResourceData`: the stored id and the attribute values. -/
structure ResourceData where
  id : String
  attrs : String → String

/-- Accessor `d.Id()`. -/
def ResourceData.Id (d : ResourceData) : String := d.id

/-- Update `d.SetId(v)`. -/
def ResourceData.SetId (d : ResourceData) (v : String) : ResourceData := ⟨v, d.attrs⟩

/-- Accessor `d.Get(key).(string)`. -/
def ResourceData.Get (d : ResourceData) (key : String) : String := d.attrs key

/-- Update `d.Set(key, value)`. -/
def ResourceData.Set (d : ResourceData) (key value : String) : ResourceData :=
  ⟨d.id, fun k => if k = key then value else d.attrs k⟩

/-- The errors the three functions return. Each `fmt.Errorf` is one constructor
holding the values that are formatted into the message. -/
inductive Err where
  /-- An error of a parser, returned as it is. -/
  | parse (e : String)
  /-- Message `checking for presence of Tag %q: %s`. -/
  | checkingTag (id : ApiOperationTagId) (cause : String)
  /-- Message `checking for presence of Tag Assignment %q: %s`. -/
  | checkingTagAssignment (id : ApiOperationTagId) (cause : String)
  /-- Result of `tf.ImportAsExistsError(resourceName, id)`. -/
  | importAsExists (resourceName : String) (id : String)
  /-- Message `assigning to api operation %q: %+v`. -/
  | assigning (id : ApiOperationTagId) (cause : String)
  /-- Message `retrieving %q: %+v`. -/
  | retrieving (id : OperationTagId) (cause : String)
  /-- Message `detaching api operation tag %q: %+v`. -/
  | detaching (id : OperationTagId) (cause : String)
deriving DecidableEq, Repr

/-- One effect of a lifecycle call. -/
inductive Event where
  | Get (resourceGroup serviceName tagId : String)
  | GetByOperation (resourceGroup serviceName apiName operationName tagName : String)
  | AssignToOperation (resourceGroup serviceName apiName operationName tagName : String)
  | DetachFromOperation (resourceGroup serviceName apiName operationName tagName : String)
  | SetId (v : String)
  | Set (key value : String)
deriving DecidableEq, Repr

/-- Is the event a call of `AssignToOperation`? -/
def Event.isAssign : Event → Bool
  | .AssignToOperation _ _ _ _ _ => true
  | _ => false

/-- Is the event a call of `d.SetId`? -/
def Event.isSetId : Event → Bool
  | .SetId _ => true
  | _ => false

/-- Is the event a `d.Set` of the given key? -/
def Event.isSetOf (key : String) : Event → Bool
  | .Set k _ => k == key
  | _ => false

/-- The result of a lifecycle call: the returned error (`none` is nil), the
resource data and the remote state it leaves, and its effects in order. -/
structure Outcome (σ : Type) where
  err : Option Err
  d : ResourceData
  remote : σ
  events : List Event

/-! ## The lifecycle functions -/

/-- Function `resourceApiManagementApiOperationTagRead` (lines 110-138). -/
def resourceApiManagementApiOperationTagRead {σ : Type} (codec : Codec) (meta : Client σ)
    (d : ResourceData) (s : σ) : Outcome σ :=
  let subscriptionId := meta.Account.SubscriptionId
  let client := meta.ApiManagement.TagClient
  match codec.OperationTagID d.Id with
  | .error err => ⟨some (.parse err), d, s, []⟩
  | .ok id =>
    let apiOperationId :=
      NewApiOperationID subscriptionId id.ResourceGroup id.ServiceName id.ApiName id.OperationName
    let r := client.GetByOperation s id.ResourceGroup id.ServiceName id.ApiName id.OperationName
      id.TagName
    let e := Event.GetByOperation id.ResourceGroup id.ServiceName id.ApiName id.OperationName
      id.TagName
    match r.err with
    | some err =>
      if ResponseWasNotFound r.resp then
        ⟨none, d.SetId "", r.remote, [e, .SetId ""]⟩
      else
        ⟨some (.retrieving id err), d, r.remote, [e]⟩
    | none =>
      let v := codec.ApiOperationId_ID apiOperationId
      ⟨none, (d.Set "api_operation_id" v).Set "name" id.TagName, r.remote,
        [e, .Set "api_operation_id" v, .Set "name" id.TagName]⟩

/-- The guard of the two probes of Create (lines 84-88 and 91-95),
`if err != nil { if !utils.ResponseWasNotFound(resp) { return ... } }`:
the error the probe makes Create return, if any. -/
def probeFailure {σ : Type} (r : Reply σ) : Option String :=
  match r.err with
  | some err => if !ResponseWasNotFound r.resp then some err else none
  | none => none

/-- Function `resourceApiManagementApiOperationTagCreate` (lines 64-108). The second
`if err != nil` (line 77) tests the error of the parse above it, which is nil
there, and is a no-op. -/
def resourceApiManagementApiOperationTagCreate {σ : Type} (codec : Codec) (meta : Client σ)
    (d : ResourceData) (s : σ) : Outcome σ :=
  let subscriptionId := meta.Account.SubscriptionId
  let client := meta.ApiManagement.TagClient
  match codec.ApiOperationID (d.Get "api_operation_id") with
  | .error err => ⟨some (.parse err), d, s, []⟩
  | .ok apiOperationId =>
    let tagName := d.Get "name"
    let tagId := NewTagID subscriptionId apiOperationId.ResourceGroup apiOperationId.ServiceName
      tagName
    let id := NewApiOperationTagID subscriptionId apiOperationId.ResourceGroup
      apiOperationId.ServiceName apiOperationId.ApiName apiOperationId.OperationName tagId.Name
    let tagExists := client.Get s apiOperationId.ResourceGroup apiOperationId.ServiceName
      (codec.TagId_ID tagId)
    let e1 := Event.Get apiOperationId.ResourceGroup apiOperationId.ServiceName
      (codec.TagId_ID tagId)
    match probeFailure tagExists with
    | some err => ⟨some (.checkingTag id err), d, tagExists.remote, [e1]⟩
    | none =>
      let tagAssignmentExist := client.GetByOperation tagExists.remote apiOperationId.ResourceGroup
        apiOperationId.ServiceName apiOperationId.ApiName apiOperationId.OperationName tagId.Name
      let e2 := Event.GetByOperation apiOperationId.ResourceGroup apiOperationId.ServiceName
        apiOperationId.ApiName apiOperationId.OperationName tagId.Name
      match probeFailure tagAssignmentExist with
      | some err => ⟨some (.checkingTagAssignment id err), d, tagAssignmentExist.remote, [e1, e2]⟩
      | none =>
        if !ResponseWasNotFound tagAssignmentExist.resp then
          ⟨some (.importAsExists "azurerm_api_management_api_operation_tag"
            (codec.ApiOperationTagId_ID id)), d, tagAssignmentExist.remote, [e1, e2]⟩
        else
          let assigned := client.AssignToOperation tagAssignmentExist.remote
            apiOperationId.ResourceGroup apiOperationId.ServiceName apiOperationId.ApiName
            apiOperationId.OperationName tagId.Name
          let e3 := Event.AssignToOperation apiOperationId.ResourceGroup
            apiOperationId.ServiceName apiOperationId.ApiName apiOperationId.OperationName
            tagId.Name
          match assigned.err with
          | some err => ⟨some (.assigning id err), d, assigned.remote, [e1, e2, e3]⟩
          | none =>
            let d1 := d.SetId (codec.ApiOperationTagId_ID id)
            let e4 := Event.SetId (codec.ApiOperationTagId_ID id)
            let r := resourceApiManagementApiOperationTagRead codec meta d1 assigned.remote
            ⟨r.err, r.d, r.remote, [e1, e2, e3, e4] ++ r.events⟩

/-- Function `resourceApiManagementApiOperationTagDelete` (lines 140-155). -/
def resourceApiManagementApiOperationTagDelete {σ : Type} (codec : Codec) (meta : Client σ)
    (d : ResourceData) (s : σ) : Outcome σ :=
  let client := meta.ApiManagement.TagClient
  match codec.OperationTagID d.Id with
  | .error err => ⟨some (.parse err), d, s, []⟩
  | .ok id =>
    let r := client.DetachFromOperation s id.ResourceGroup id.ServiceName id.ApiName
      id.OperationName id.TagName
    let e := Event.DetachFromOperation id.ResourceGroup id.ServiceName id.ApiName
      id.OperationName id.TagName
    match r.err with
    | some err => ⟨some (.detaching id err), d, r.remote, [e]⟩
    | none => ⟨none, d, r.remote, [e]⟩

/-! ## The steps of Create, named -/

/-- The assignment identifier Create derives (line 81): the subscription id of
the client with the resource group, service, api and operation parsed from
`api_operation_id` and the declared tag name. -/
def derivedId {σ : Type} (meta : Client σ) (a : ApiOperationId) (name : String) :
    ApiOperationTagId :=
  NewApiOperationTagID meta.Account.SubscriptionId a.ResourceGroup a.ServiceName a.ApiName
    a.OperationName name

/-- The reply to the tag probe of Create (`client.Get`, line 83), called in the
remote state `s`. -/
def tagProbe {σ : Type} (codec : Codec) (meta : Client σ) (a : ApiOperationId) (name : String)
    (s : σ) : Reply σ :=
  meta.ApiManagement.TagClient.Get s a.ResourceGroup a.ServiceName
    (codec.TagId_ID (NewTagID meta.Account.SubscriptionId a.ResourceGroup a.ServiceName name))

/-- The reply to the assignment probe of Create (`client.GetByOperation`,
line 90), called in the remote state the tag probe leaves. -/
def assignmentProbe {σ : Type} (codec : Codec) (meta : Client σ) (a : ApiOperationId)
    (name : String) (s : σ) : Reply σ :=
  meta.ApiManagement.TagClient.GetByOperation (tagProbe codec meta a name s).remote
    a.ResourceGroup a.ServiceName a.ApiName a.OperationName name

/-- The reply to `client.AssignToOperation` in Create (line 101), called in the
remote state the assignment probe leaves. -/
def assignCall {σ : Type} (codec : Codec) (meta : Client σ) (a : ApiOperationId)
    (name : String) (s : σ) : Reply σ :=
  meta.ApiManagement.TagClient.AssignToOperation (assignmentProbe codec meta a name s).remote
    a.ResourceGroup a.ServiceName a.ApiName a.OperationName name

/-- The reply to the GetByOperation call of the Read that ends Create
(line 123), called in the remote state AssignToOperation leaves, when the
stored identifier parses back to the fields it was derived from. -/
def readProbe {σ : Type} (codec : Codec) (meta : Client σ) (a : ApiOperationId)
    (name : String) (s : σ) : Reply σ :=
  meta.ApiManagement.TagClient.GetByOperation (assignCall codec meta a name s).remote
    a.ResourceGroup a.ServiceName a.ApiName a.OperationName name

/-! ## The resource definition -/

/-- The fields of a `pluginsdk.Schema` the resource sets (the validation
function is omitted). -/
structure Schema where
  Required : Bool
  Optional : Bool
  ForceNew : Bool
  Deprecated : String
deriving DecidableEq, Repr

/-- The `Schema` map of `resourceApiManagementApiOperationTag` (lines 18-62) as
a list of keyed entries; `fourPointOhBeta` is the value of
`features.FourPointOhBeta()`. -/
def resourceApiManagementApiOperationTag (fourPointOhBeta : Bool) : List (String × Schema) :=
  let schema : List (String × Schema) :=
    [("api_operation_id", ⟨true, false, true, ""⟩),
     ("name", ⟨true, false, true, ""⟩)]
  if !fourPointOhBeta then
    schema ++ [("display_name", ⟨false, true, true,
      "This property has been deprecated and will be removed in v4.0 of the provider"⟩)]
  else
    schema

/-! ## A concrete codec and concrete remotes -/

/-- Cut a character list at every slash. -/
def splitSlash : List Char → List (List Char)
  | [] => [[]]
  | c :: cs =>
    if c = '/' then [] :: splitSlash cs
    else
      match splitSlash cs with
      | [] => [[c]]
      | seg :: rest => (c :: seg) :: rest

/-- The path segments of an identifier string. -/
def segments (input : String) : List String :=
  (splitSlash input.data).map String.mk

/-- Modelled from the spec: the parser `parse.ApiOperationID` is not among the
sources. It accepts exactly the strings
`/subscriptions/{sub}/resourceGroups/{rg}/providers/Microsoft.ApiManagement/service/{service}/apis/{api}/operations/{operation}`
with non-empty fields, following the persisted identifier format. -/
def azureApiOperationID (input : String) : Except String ApiOperationId :=
  match segments input with
  | [e, k1, sub, k2, rg, k3, ns, k4, svc, k5, api, k6, op] =>
    if e = "" ∧ k1 = "subscriptions" ∧ k2 = "resourceGroups" ∧ k3 = "providers"
        ∧ ns = "Microsoft.ApiManagement" ∧ k4 = "service" ∧ k5 = "apis" ∧ k6 = "operations"
        ∧ sub ≠ "" ∧ rg ≠ "" ∧ svc ≠ "" ∧ api ≠ "" ∧ op ≠ "" then
      .ok ⟨sub, rg, svc, api, op⟩
    else .error "InvalidIdentifier"
  | _ => .error "InvalidIdentifier"

/-- Modelled from the spec: the parser `parse.OperationTagID` is not among the
sources. It accepts exactly the strings of the persisted identifier format,
an operation path followed by `/tags/{tag}`, with non-empty fields. -/
def azureOperationTagID (input : String) : Except String OperationTagId :=
  match segments input with
  | [e, k1, sub, k2, rg, k3, ns, k4, svc, k5, api, k6, op, k7, tag] =>
    if e = "" ∧ k1 = "subscriptions" ∧ k2 = "resourceGroups" ∧ k3 = "providers"
        ∧ ns = "Microsoft.ApiManagement" ∧ k4 = "service" ∧ k5 = "apis" ∧ k6 = "operations"
        ∧ k7 = "tags"
        ∧ sub ≠ "" ∧ rg ≠ "" ∧ svc ≠ "" ∧ api ≠ "" ∧ op ≠ "" ∧ tag ≠ "" then
      .ok ⟨sub, rg, svc, api, op, tag⟩
    else .error "InvalidIdentifier"
  | _ => .error "InvalidIdentifier"

/-- Modelled from the spec: the `ID()` methods and parsers of package `parse`
are not among the sources; this codec writes and reads the persisted identifier
format
`/subscriptions/{sub}/resourceGroups/{rg}/providers/.../service/{service}/apis/{api}/operations/{operation}/tags/{tag}`. -/
def azureCodec : Codec where
  ApiOperationID := azureApiOperationID
  OperationTagID := azureOperationTagID
  ApiOperationId_ID := fun id =>
    "/subscriptions/" ++ id.SubscriptionId ++ "/resourceGroups/" ++ id.ResourceGroup
      ++ "/providers/Microsoft.ApiManagement/service/" ++ id.ServiceName
      ++ "/apis/" ++ id.ApiName ++ "/operations/" ++ id.OperationName
  TagId_ID := fun id =>
    "/subscriptions/" ++ id.SubscriptionId ++ "/resourceGroups/" ++ id.ResourceGroup
      ++ "/providers/Microsoft.ApiManagement/service/" ++ id.ServiceName
      ++ "/tags/" ++ id.Name
  ApiOperationTagId_ID := fun id =>
    "/subscriptions/" ++ id.SubscriptionId ++ "/resourceGroups/" ++ id.ResourceGroup
      ++ "/providers/Microsoft.ApiManagement/service/" ++ id.ServiceName
      ++ "/apis/" ++ id.ApiName ++ "/operations/" ++ id.OperationName
      ++ "/tags/" ++ id.TagName

/-- A remote state that records the tags and the tag assignments of a service:
tags are keyed by `(resourceGroup, serviceName, tagId)`, assignments by
`(resourceGroup, serviceName, apiName, operationName, tagName)`. -/
structure Remote where
  tags : List (String × String × String)
  assignments : List (String × String × String × String × String)
deriving DecidableEq, Repr

/-- A client over a recording remote. A probe answers 200 for a recorded entry
and fails with a 404 response otherwise; `AssignToOperation` records the
assignment; `DetachFromOperation` erases a recorded assignment and fails with a
404 response for one that is absent. -/
def recordingClient : TagClient Remote where
  Get := fun s resourceGroup serviceName tagId =>
    if (resourceGroup, serviceName, tagId) ∈ s.tags then ⟨some 200, none, s⟩
    else ⟨some 404, some "Tag not found", s⟩
  GetByOperation := fun s resourceGroup serviceName apiName operationName tagName =>
    if (resourceGroup, serviceName, apiName, operationName, tagName) ∈ s.assignments then
      ⟨some 200, none, s⟩
    else ⟨some 404, some "Tag assignment not found", s⟩
  AssignToOperation := fun s resourceGroup serviceName apiName operationName tagName =>
    ⟨some 201, none,
      ⟨s.tags, (resourceGroup, serviceName, apiName, operationName, tagName) :: s.assignments⟩⟩
  DetachFromOperation := fun s resourceGroup serviceName apiName operationName tagName =>
    if (resourceGroup, serviceName, apiName, operationName, tagName) ∈ s.assignments then
      ⟨some 200, none,
        ⟨s.tags, s.assignments.filter
          (fun x => x ≠ (resourceGroup, serviceName, apiName, operationName, tagName))⟩⟩
    else ⟨some 404, some "Tag assignment not found", s⟩

/-- A tag client records assignments, `holds s k` saying that the remote state
`s` holds the assignment `k = (resourceGroup, serviceName, apiName,
operationName, tagName)`: the two probes leave the recorded assignments as they
are, GetByOperation returns no error and a response other than not-found for a
recorded assignment and fails with a not-found response for any other, and an
AssignToOperation that returns no error records the assignment. -/
structure RecordsAssignments {σ : Type} (c : TagClient σ)
    (holds : σ → String × String × String × String × String → Prop) : Prop where
  get_keeps : ∀ s rg svc t k, holds (c.Get s rg svc t).remote k ↔ holds s k
  probe_keeps : ∀ s rg svc api op t k,
    holds (c.GetByOperation s rg svc api op t).remote k ↔ holds s k
  probe_found : ∀ s rg svc api op t, holds s (rg, svc, api, op, t) →
    (c.GetByOperation s rg svc api op t).err = none
      ∧ ResponseWasNotFound (c.GetByOperation s rg svc api op t).resp = false
  probe_absent : ∀ s rg svc api op t, ¬ holds s (rg, svc, api, op, t) →
    (c.GetByOperation s rg svc api op t).err ≠ none
      ∧ ResponseWasNotFound (c.GetByOperation s rg svc api op t).resp = true
  assign_records : ∀ s rg svc api op t, (c.AssignToOperation s rg svc api op t).err = none →
    holds (c.AssignToOperation s rg svc api op t).remote (rg, svc, api, op, t)

/-- The next reply of a scripted remote: the head of the script. -/
def scriptedReply : List (Response × Option String) → Reply (List (Response × Option String))
  | [] => ⟨none, some "no reply", []⟩
  | (resp, err) :: rest => ⟨resp, err, rest⟩

/-- A client whose remote state is a script of replies; every call, whatever
its arguments, consumes the next one. -/
def scriptedClient : TagClient (List (Response × Option String)) where
  Get := fun s _ _ _ => scriptedReply s
  GetByOperation := fun s _ _ _ _ _ => scriptedReply s
  AssignToOperation := fun s _ _ _ _ _ => scriptedReply s
  DetachFromOperation := fun s _ _ _ _ _ => scriptedReply s

/-- A `clients.Client` with the given account subscription id and tag client. -/
def clientOf {σ : Type} (subscriptionId : String) (c : TagClient σ) : Client σ :=
  ⟨⟨subscriptionId⟩, ⟨c⟩⟩

/-- A declared state before Create: no id, the two required attributes set. -/
def declared (apiOperationId name : String) : ResourceData :=
  ⟨"", fun k => if k = "api_operation_id" then apiOperationId else if k = "name" then name else ""⟩

/-- A state that holds only a stored id, as on import. -/
def stored (id : String) : ResourceData := ⟨id, fun _ => ""⟩

/-- An operation id in subscription `sub-a`. -/
def opIdA : String :=
  "/subscriptions/sub-a/resourceGroups/rg1/providers/Microsoft.ApiManagement/service/svc1/apis/my-api/operations/my-op"

/-- The same operation path in subscription `sub-b`. -/
def opIdB : String :=
  "/subscriptions/sub-b/resourceGroups/rg1/providers/Microsoft.ApiManagement/service/svc1/apis/my-api/operations/my-op"

/-- The assignment id of tag `acctest-Tag-123` on `opIdA`. -/
def tagIdA : String :=
  "/subscriptions/sub-a/resourceGroups/rg1/providers/Microsoft.ApiManagement/service/svc1/apis/my-api/operations/my-op/tags/acctest-Tag-123"

/-- The assignment id of tag `acctest-Tag-123` on `opIdB`. -/
def tagIdB : String :=
  "/subscriptions/sub-b/resourceGroups/rg1/providers/Microsoft.ApiManagement/service/svc1/apis/my-api/operations/my-op/tags/acctest-Tag-123"

/-! ## Relations between states and between outcomes -/

/-- Two resource data that differ at most in the value of `display_name`. -/
def agreeUpToDisplayName (d1 d2 : ResourceData) : Prop :=
  d1.Id = d2.Id ∧ ∀ k, k ≠ "display_name" → d1.Get k = d2.Get k

/-- Two outcomes with the same error, effects and remote state, whose resource
data differ at most in the value of `display_name`. -/
def sameOutcome {σ : Type} (o1 o2 : Outcome σ) : Prop :=
  o1.err = o2.err ∧ o1.events = o2.events ∧ o1.remote = o2.remote
    ∧ agreeUpToDisplayName o1.d o2.d

/-! ## Read -/

/-- C3. Drift detection: for a stored identifier that parses, if GetByOperation
fails with a not-found response then Read returns no error, sets the stored
identifier to the empty string and writes no attribute (its only effects are
the probe and `SetId ""`); if GetByOperation fails with any other response,
Read returns the wrapped error and leaves the resource data unchanged. -/
theorem read_drift_detection {σ : Type} (codec : Codec) (meta : Client σ) (d : ResourceData)
    (s : σ) (id : OperationTagId) (cause : String)
    (hid : codec.OperationTagID d.Id = .ok id)
    (herr : (meta.ApiManagement.TagClient.GetByOperation s id.ResourceGroup id.ServiceName
      id.ApiName id.OperationName id.TagName).err = some cause) :
    (ResponseWasNotFound (meta.ApiManagement.TagClient.GetByOperation s id.ResourceGroup
        id.ServiceName id.ApiName id.OperationName id.TagName).resp = true →
      (resourceApiManagementApiOperationTagRead codec meta d s).err = none
      ∧ (resourceApiManagementApiOperationTagRead codec meta d s).d.Id = ""
      ∧ (resourceApiManagementApiOperationTagRead codec meta d s).d.attrs = d.attrs
      ∧ (resourceApiManagementApiOperationTagRead codec meta d s).events =
          [.GetByOperation id.ResourceGroup id.ServiceName id.ApiName id.OperationName id.TagName,
           .SetId ""]
      ∧ ∀ ev ∈ (resourceApiManagementApiOperationTagRead codec meta d s).events,
          ev.isSetOf "api_operation_id" = false ∧ ev.isSetOf "name" = false)
    ∧ (ResponseWasNotFound (meta.ApiManagement.TagClient.GetByOperation s id.ResourceGroup
        id.ServiceName id.ApiName id.OperationName id.TagName).resp = false →
      (resourceApiManagementApiOperationTagRead codec meta d s).err = some (.retrieving id cause)
      ∧ (resourceApiManagementApiOperationTagRead codec meta d s).d = d
      ∧ (resourceApiManagementApiOperationTagRead codec meta d s).events =
          [.GetByOperation id.ResourceGroup id.ServiceName id.ApiName id.OperationName
            id.TagName]) := by
  constructor
  · intro hnf
    simp [resourceApiManagementApiOperationTagRead, hid, herr, hnf, ResourceData.SetId,
      Event.isSetOf]
    rfl
  · intro hnf
    simp [resourceApiManagementApiOperationTagRead, hid, herr, hnf]

/-- Witness of C3: on the stored id `tagIdA`, a recording remote without the
assignment makes Read clear the id without error, and a scripted remote that
answers 500 makes Read fail and keep the id. -/
theorem read_drift_detection_witness :
    azureCodec.OperationTagID (stored tagIdA).Id
        = .ok ⟨"sub-a", "rg1", "svc1", "my-api", "my-op", "acctest-Tag-123"⟩
    ∧ (resourceApiManagementApiOperationTagRead azureCodec (clientOf "sub-a" recordingClient)
        (stored tagIdA) ⟨[], []⟩).err = none
    ∧ (resourceApiManagementApiOperationTagRead azureCodec (clientOf "sub-a" recordingClient)
        (stored tagIdA) ⟨[], []⟩).d.Id = ""
    ∧ (resourceApiManagementApiOperationTagRead azureCodec (clientOf "sub-a" scriptedClient)
        (stored tagIdA) [(some 500, some "server error")]).err
        = some (.retrieving ⟨"sub-a", "rg1", "svc1", "my-api", "my-op", "acctest-Tag-123"⟩
            "server error")
    ∧ (resourceApiManagementApiOperationTagRead azureCodec (clientOf "sub-a" scriptedClient)
        (stored tagIdA) [(some 500, some "server error")]).d = stored tagIdA :=
  ⟨rfl,
   ((read_drift_detection azureCodec (clientOf "sub-a" recordingClient) (stored tagIdA) ⟨[], []⟩
      ⟨"sub-a", "rg1", "svc1", "my-api", "my-op", "acctest-Tag-123"⟩ "Tag assignment not found"
      rfl rfl).1 rfl).1,
   ((read_drift_detection azureCodec (clientOf "sub-a" recordingClient) (stored tagIdA) ⟨[], []⟩
      ⟨"sub-a", "rg1", "svc1", "my-api", "my-op", "acctest-Tag-123"⟩ "Tag assignment not found"
      rfl rfl).1 rfl).2.1,
   ((read_drift_detection azureCodec (clientOf "sub-a" scriptedClient) (stored tagIdA)
      [(some 500, some "server error")]
      ⟨"sub-a", "rg1", "svc1", "my-api", "my-op", "acctest-Tag-123"⟩ "server error"
      rfl rfl).2 rfl).1,
   ((read_drift_detection azureCodec (clientOf "sub-a" scriptedClient) (stored tagIdA)
      [(some 500, some "server error")]
      ⟨"sub-a", "rg1", "svc1", "my-api", "my-op", "acctest-Tag-123"⟩ "server error"
      rfl rfl).2 rfl).2.1⟩

/-! ## Delete -/

/-- C4. Delete of an absent assignment: for a stored identifier that parses,
Delete returns the wrapped error whenever DetachFromOperation returns an error,
whatever the response, a not-found response included; and Delete returns no
error if and only if the identifier parses and DetachFromOperation returns no
error. -/
theorem delete_of_absent {σ : Type} (codec : Codec) (meta : Client σ) (d : ResourceData)
    (s : σ) :
    (∀ (id : OperationTagId) (cause : String), codec.OperationTagID d.Id = .ok id →
      (meta.ApiManagement.TagClient.DetachFromOperation s id.ResourceGroup id.ServiceName
        id.ApiName id.OperationName id.TagName).err = some cause →
      (resourceApiManagementApiOperationTagDelete codec meta d s).err
        = some (.detaching id cause))
    ∧ ((resourceApiManagementApiOperationTagDelete codec meta d s).err = none ↔
        ∃ id : OperationTagId, codec.OperationTagID d.Id = .ok id
          ∧ (meta.ApiManagement.TagClient.DetachFromOperation s id.ResourceGroup id.ServiceName
              id.ApiName id.OperationName id.TagName).err = none) := by
  constructor
  · intro id cause hid herr
    simp [resourceApiManagementApiOperationTagDelete, hid, herr]
  · cases hid : codec.OperationTagID d.Id with
    | error e => simp [resourceApiManagementApiOperationTagDelete, hid]
    | ok id =>
      cases herr : (meta.ApiManagement.TagClient.DetachFromOperation s id.ResourceGroup
          id.ServiceName id.ApiName id.OperationName id.TagName).err with
      | none => simp [resourceApiManagementApiOperationTagDelete, hid, herr]
      | some cause => simp [resourceApiManagementApiOperationTagDelete, hid, herr]

/-- Witness of C4: on the stored id `tagIdA`, Delete against a recording remote
without the assignment (DetachFromOperation fails with a 404 response) returns
the wrapped error, and against one that holds the assignment it succeeds. -/
theorem delete_of_absent_witness :
    azureCodec.OperationTagID (stored tagIdA).Id
        = .ok ⟨"sub-a", "rg1", "svc1", "my-api", "my-op", "acctest-Tag-123"⟩
    ∧ ResponseWasNotFound (recordingClient.DetachFromOperation ⟨[], []⟩ "rg1" "svc1" "my-api"
        "my-op" "acctest-Tag-123").resp = true
    ∧ (resourceApiManagementApiOperationTagDelete azureCodec (clientOf "sub-a" recordingClient)
        (stored tagIdA) ⟨[], []⟩).err
        = some (.detaching ⟨"sub-a", "rg1", "svc1", "my-api", "my-op", "acctest-Tag-123"⟩
            "Tag assignment not found")
    ∧ (resourceApiManagementApiOperationTagDelete azureCodec (clientOf "sub-a" recordingClient)
        (stored tagIdA) ⟨[], [("rg1", "svc1", "my-api", "my-op", "acctest-Tag-123")]⟩).err
        = none :=
  ⟨rfl, rfl,
   (delete_of_absent azureCodec (clientOf "sub-a" recordingClient) (stored tagIdA) ⟨[], []⟩).1
      ⟨"sub-a", "rg1", "svc1", "my-api", "my-op", "acctest-Tag-123"⟩ "Tag assignment not found"
      rfl rfl,
   (delete_of_absent azureCodec (clientOf "sub-a" recordingClient) (stored tagIdA)
      ⟨[], [("rg1", "svc1", "my-api", "my-op", "acctest-Tag-123")]⟩).2.2
      ⟨⟨"sub-a", "rg1", "svc1", "my-api", "my-op", "acctest-Tag-123"⟩, rfl, rfl⟩⟩

/-! ## Malformed identifiers -/

/-- C5. Malformed-id rejection: when the identifier parser rejects the stored
identifier, Read and Delete both return the error of the parser, issue no
remote call (their event logs are empty, so neither GetByOperation nor
DetachFromOperation is called and nothing is written), and leave the resource
data and the remote state unchanged. -/
theorem malformed_id_rejected {σ : Type} (codec : Codec) (meta : Client σ) (d : ResourceData)
    (s : σ) (e : String) (hid : codec.OperationTagID d.Id = .error e) :
    (resourceApiManagementApiOperationTagRead codec meta d s).err = some (.parse e)
    ∧ (resourceApiManagementApiOperationTagRead codec meta d s).events = []
    ∧ (resourceApiManagementApiOperationTagRead codec meta d s).d = d
    ∧ (resourceApiManagementApiOperationTagRead codec meta d s).remote = s
    ∧ (resourceApiManagementApiOperationTagDelete codec meta d s).err = some (.parse e)
    ∧ (resourceApiManagementApiOperationTagDelete codec meta d s).events = []
    ∧ (resourceApiManagementApiOperationTagDelete codec meta d s).d = d
    ∧ (resourceApiManagementApiOperationTagDelete codec meta d s).remote = s := by
  simp [resourceApiManagementApiOperationTagRead, resourceApiManagementApiOperationTagDelete, hid]

/-- Witness of C5: an operation id without the `tags` segment is rejected by the
tag-assignment parser, so Read and Delete return its error and call nothing. -/
theorem malformed_id_rejected_witness :
    azureCodec.OperationTagID (stored opIdA).Id = .error "InvalidIdentifier"
    ∧ (resourceApiManagementApiOperationTagRead azureCodec (clientOf "sub-a" recordingClient)
        (stored opIdA) ⟨[], []⟩).err = some (.parse "InvalidIdentifier")
    ∧ (resourceApiManagementApiOperationTagRead azureCodec (clientOf "sub-a" recordingClient)
        (stored opIdA) ⟨[], []⟩).events = []
    ∧ (resourceApiManagementApiOperationTagDelete azureCodec (clientOf "sub-a" recordingClient)
        (stored opIdA) ⟨[], []⟩).err = some (.parse "InvalidIdentifier")
    ∧ (resourceApiManagementApiOperationTagDelete azureCodec (clientOf "sub-a" recordingClient)
        (stored opIdA) ⟨[], []⟩).events = [] :=
  ⟨rfl,
   (malformed_id_rejected azureCodec (clientOf "sub-a" recordingClient) (stored opIdA) ⟨[], []⟩
      "InvalidIdentifier" rfl).1,
   (malformed_id_rejected azureCodec (clientOf "sub-a" recordingClient) (stored opIdA) ⟨[], []⟩
      "InvalidIdentifier" rfl).2.1,
   (malformed_id_rejected azureCodec (clientOf "sub-a" recordingClient) (stored opIdA) ⟨[], []⟩
      "InvalidIdentifier" rfl).2.2.2.2.1,
   (malformed_id_rejected azureCodec (clientOf "sub-a" recordingClient) (stored opIdA) ⟨[], []⟩
      "InvalidIdentifier" rfl).2.2.2.2.2.1⟩

/-! ## Create: the probes -/

/-- A probe that answers not-found does not abort Create. -/
theorem probeFailure_of_notFound {σ : Type} (r : Reply σ)
    (h : ResponseWasNotFound r.resp = true) : probeFailure r = none := by
  unfold probeFailure
  cases r.err <;> simp [h]

/-- A probe without an error does not abort Create. -/
theorem probeFailure_of_ok {σ : Type} (r : Reply σ) (h : r.err = none) :
    probeFailure r = none := by
  simp [probeFailure, h]

/-- A probe that fails with another response aborts Create with its error. -/
theorem probeFailure_of_err {σ : Type} (r : Reply σ) (c : String) (h : r.err = some c)
    (hnf : ResponseWasNotFound r.resp = false) : probeFailure r = some c := by
  simp [probeFailure, h, hnf]

/-- The tag name of the tag id Create builds is the declared name. -/
theorem NewTagID_Name (sub rg svc name : String) : (NewTagID sub rg svc name).Name = name := rfl

/-- C9. Tag probe tolerance in Create: when `api_operation_id` parses and the
tag Get call fails, then (a) if its response is not-found, Create does not fail
at that step: it returns no tag-probe error, its next call is the
GetByOperation probe, and when that probe answers not-found the call after it
is AssignToOperation; (b) if its response is anything else, Create returns the
wrapped error at once: the tag Get is its only effect (no GetByOperation, no
AssignToOperation, no SetId) and the resource data is unchanged. -/
theorem create_tag_probe_tolerance {σ : Type} (codec : Codec) (meta : Client σ)
    (d : ResourceData) (s : σ) (a : ApiOperationId) (cause : String)
    (hX : codec.ApiOperationID (d.Get "api_operation_id") = .ok a)
    (herr : (tagProbe codec meta a (d.Get "name") s).err = some cause) :
    (ResponseWasNotFound (tagProbe codec meta a (d.Get "name") s).resp = true →
      (∀ i c, (resourceApiManagementApiOperationTagCreate codec meta d s).err
          ≠ some (.checkingTag i c))
      ∧ (resourceApiManagementApiOperationTagCreate codec meta d s).events.take 2 =
          [.Get a.ResourceGroup a.ServiceName (codec.TagId_ID (NewTagID
              meta.Account.SubscriptionId a.ResourceGroup a.ServiceName (d.Get "name"))),
           .GetByOperation a.ResourceGroup a.ServiceName a.ApiName a.OperationName
              (d.Get "name")]
      ∧ (ResponseWasNotFound (assignmentProbe codec meta a (d.Get "name") s).resp = true →
          (resourceApiManagementApiOperationTagCreate codec meta d s).events.take 3 =
            [.Get a.ResourceGroup a.ServiceName (codec.TagId_ID (NewTagID
                meta.Account.SubscriptionId a.ResourceGroup a.ServiceName (d.Get "name"))),
             .GetByOperation a.ResourceGroup a.ServiceName a.ApiName a.OperationName
                (d.Get "name"),
             .AssignToOperation a.ResourceGroup a.ServiceName a.ApiName a.OperationName
                (d.Get "name")]))
    ∧ (ResponseWasNotFound (tagProbe codec meta a (d.Get "name") s).resp = false →
      (resourceApiManagementApiOperationTagCreate codec meta d s).err
          = some (.checkingTag (derivedId meta a (d.Get "name")) cause)
      ∧ (resourceApiManagementApiOperationTagCreate codec meta d s).events =
          [.Get a.ResourceGroup a.ServiceName (codec.TagId_ID (NewTagID
              meta.Account.SubscriptionId a.ResourceGroup a.ServiceName (d.Get "name")))]
      ∧ (resourceApiManagementApiOperationTagCreate codec meta d s).d = d) := by
  have h1 := probeFailure_of_err _ cause herr
  constructor
  · intro hnf
    have h0 := probeFailure_of_notFound _ hnf
    simp only [tagProbe] at h0
    refine ⟨?_, ?_, ?_⟩
    · intro i c
      simp only [resourceApiManagementApiOperationTagCreate, hX, NewTagID_Name, h0]
      split <;> [simp; skip]
      split <;> [simp; skip]
      split <;> [simp; skip]
      simp only [resourceApiManagementApiOperationTagRead]
      split <;> [simp; skip]
      split <;> [skip; simp]
      split <;> simp
    · simp only [resourceApiManagementApiOperationTagCreate, hX, NewTagID_Name, h0]
      split <;> [simp; skip]
      split <;> [simp; skip]
      split <;> simp
    · intro hnf2
      have h2 := probeFailure_of_notFound _ hnf2
      simp only [assignmentProbe, tagProbe] at h2 hnf2
      simp only [resourceApiManagementApiOperationTagCreate, hX, NewTagID_Name, h0, h2, hnf2,
        Bool.not_true, Bool.false_eq_true, if_false]
      split <;> simp
  · intro hnf
    have h0 := h1 hnf
    simp only [tagProbe] at h0
    simp [resourceApiManagementApiOperationTagCreate, hX, NewTagID_Name, h0, derivedId]

/-- Witness of C9: with `opIdA` and tag `acctest-Tag-123` declared, a recording
remote that knows neither the tag nor the assignment lets Create go on to
GetByOperation and AssignToOperation, and a scripted remote whose tag Get
answers 500 makes Create fail after that single call. -/
theorem create_tag_probe_tolerance_witness :
    azureCodec.ApiOperationID ((declared opIdA "acctest-Tag-123").Get "api_operation_id")
        = .ok ⟨"sub-a", "rg1", "svc1", "my-api", "my-op"⟩
    ∧ (resourceApiManagementApiOperationTagCreate azureCodec (clientOf "sub-a" recordingClient)
        (declared opIdA "acctest-Tag-123") ⟨[], []⟩).events.take 3 =
        [.Get "rg1" "svc1"
            "/subscriptions/sub-a/resourceGroups/rg1/providers/Microsoft.ApiManagement/service/svc1/tags/acctest-Tag-123",
         .GetByOperation "rg1" "svc1" "my-api" "my-op" "acctest-Tag-123",
         .AssignToOperation "rg1" "svc1" "my-api" "my-op" "acctest-Tag-123"]
    ∧ (resourceApiManagementApiOperationTagCreate azureCodec (clientOf "sub-a" scriptedClient)
        (declared opIdA "acctest-Tag-123") [(some 500, some "server error")]).err
        = some (.checkingTag
            ⟨"sub-a", "rg1", "svc1", "my-api", "my-op", "acctest-Tag-123"⟩ "server error")
    ∧ (resourceApiManagementApiOperationTagCreate azureCodec (clientOf "sub-a" scriptedClient)
        (declared opIdA "acctest-Tag-123") [(some 500, some "server error")]).events
        = [.Get "rg1" "svc1"
            "/subscriptions/sub-a/resourceGroups/rg1/providers/Microsoft.ApiManagement/service/svc1/tags/acctest-Tag-123"] :=
  ⟨rfl,
   ((create_tag_probe_tolerance azureCodec (clientOf "sub-a" recordingClient)
      (declared opIdA "acctest-Tag-123") ⟨[], []⟩ ⟨"sub-a", "rg1", "svc1", "my-api", "my-op"⟩
      "Tag not found" rfl rfl).1 rfl).2.2 rfl,
   ((create_tag_probe_tolerance azureCodec (clientOf "sub-a" scriptedClient)
      (declared opIdA "acctest-Tag-123") [(some 500, some "server error")]
      ⟨"sub-a", "rg1", "svc1", "my-api", "my-op"⟩ "server error" rfl rfl).2 rfl).1,
   ((create_tag_probe_tolerance azureCodec (clientOf "sub-a" scriptedClient)
      (declared opIdA "acctest-Tag-123") [(some 500, some "server error")]
      ⟨"sub-a", "rg1", "svc1", "my-api", "my-op"⟩ "server error" rfl rfl).2 rfl).2.1⟩

/-- When the response of the assignment probe is not a not-found response,
Create stops there: with the import-required error if the probe returned no
error, with the wrapped probe error otherwise. -/
theorem create_stops_at_found {σ : Type} (codec : Codec) (meta : Client σ) (d : ResourceData)
    (s : σ) (a : ApiOperationId)
    (hX : codec.ApiOperationID (d.Get "api_operation_id") = .ok a)
    (htag : probeFailure (tagProbe codec meta a (d.Get "name") s) = none)
    (hnf : ResponseWasNotFound (assignmentProbe codec meta a (d.Get "name") s).resp = false) :
    ((assignmentProbe codec meta a (d.Get "name") s).err = none →
        (resourceApiManagementApiOperationTagCreate codec meta d s).err
          = some (.importAsExists "azurerm_api_management_api_operation_tag"
              (codec.ApiOperationTagId_ID (derivedId meta a (d.Get "name")))))
    ∧ (∀ c, (assignmentProbe codec meta a (d.Get "name") s).err = some c →
        (resourceApiManagementApiOperationTagCreate codec meta d s).err
          = some (.checkingTagAssignment (derivedId meta a (d.Get "name")) c))
    ∧ (∀ ev ∈ (resourceApiManagementApiOperationTagCreate codec meta d s).events,
        ev.isAssign = false ∧ ev.isSetId = false)
    ∧ (resourceApiManagementApiOperationTagCreate codec meta d s).d = d := by
  cases herr : (assignmentProbe codec meta a (d.Get "name") s).err with
  | none =>
    have h2 := probeFailure_of_ok _ herr
    simp only [assignmentProbe, tagProbe] at htag h2 hnf
    simp [resourceApiManagementApiOperationTagCreate, hX, NewTagID_Name, htag, h2, hnf, derivedId,
      Event.isAssign, Event.isSetId]
  | some c =>
    have h2 := probeFailure_of_err _ c herr hnf
    simp only [assignmentProbe, tagProbe] at htag h2 hnf
    simp [resourceApiManagementApiOperationTagCreate, hX, NewTagID_Name, htag, h2, derivedId,
      Event.isAssign, Event.isSetId]

/-- When both probes let Create pass and AssignToOperation returns no error,
Create stores the derived identifier and ends with the Read of the state that
holds it: its error, state and remote are those of that Read, and its effects
are the three calls, the `d.SetId`, and the effects of that Read. -/
theorem create_reaches_read {σ : Type} (codec : Codec) (meta : Client σ) (d : ResourceData)
    (s : σ) (a : ApiOperationId)
    (hX : codec.ApiOperationID (d.Get "api_operation_id") = .ok a)
    (htag : probeFailure (tagProbe codec meta a (d.Get "name") s) = none)
    (hprobe : ResponseWasNotFound (assignmentProbe codec meta a (d.Get "name") s).resp = true)
    (hassign : (assignCall codec meta a (d.Get "name") s).err = none) :
    resourceApiManagementApiOperationTagCreate codec meta d s =
      ⟨(resourceApiManagementApiOperationTagRead codec meta
          (d.SetId (codec.ApiOperationTagId_ID (derivedId meta a (d.Get "name"))))
          (assignCall codec meta a (d.Get "name") s).remote).err,
       (resourceApiManagementApiOperationTagRead codec meta
          (d.SetId (codec.ApiOperationTagId_ID (derivedId meta a (d.Get "name"))))
          (assignCall codec meta a (d.Get "name") s).remote).d,
       (resourceApiManagementApiOperationTagRead codec meta
          (d.SetId (codec.ApiOperationTagId_ID (derivedId meta a (d.Get "name"))))
          (assignCall codec meta a (d.Get "name") s).remote).remote,
       [.Get a.ResourceGroup a.ServiceName (codec.TagId_ID (NewTagID
            meta.Account.SubscriptionId a.ResourceGroup a.ServiceName (d.Get "name"))),
        .GetByOperation a.ResourceGroup a.ServiceName a.ApiName a.OperationName (d.Get "name"),
        .AssignToOperation a.ResourceGroup a.ServiceName a.ApiName a.OperationName
            (d.Get "name"),
        .SetId (codec.ApiOperationTagId_ID (derivedId meta a (d.Get "name")))]
        ++ (resourceApiManagementApiOperationTagRead codec meta
          (d.SetId (codec.ApiOperationTagId_ID (derivedId meta a (d.Get "name"))))
          (assignCall codec meta a (d.Get "name") s).remote).events⟩ := by
  have h2 := probeFailure_of_notFound _ hprobe
  simp only [assignCall, assignmentProbe, tagProbe] at htag hprobe hassign h2 ⊢
  simp only [resourceApiManagementApiOperationTagCreate, hX, NewTagID_Name, htag, h2, hprobe,
    hassign, derivedId, Bool.not_true, Bool.false_eq_true, if_false]

/-- A Create that returns no error passed both probes, with a not-found
response of the assignment probe, and its AssignToOperation returned no
error. -/
theorem create_ok_steps {σ : Type} (codec : Codec) (meta : Client σ) (d : ResourceData)
    (s : σ) (a : ApiOperationId)
    (hX : codec.ApiOperationID (d.Get "api_operation_id") = .ok a)
    (hok : (resourceApiManagementApiOperationTagCreate codec meta d s).err = none) :
    probeFailure (tagProbe codec meta a (d.Get "name") s) = none
    ∧ ResponseWasNotFound (assignmentProbe codec meta a (d.Get "name") s).resp = true
    ∧ (assignCall codec meta a (d.Get "name") s).err = none := by
  simp only [tagProbe, assignmentProbe, assignCall]
  simp only [resourceApiManagementApiOperationTagCreate, hX, NewTagID_Name] at hok
  split at hok
  · simp at hok
  · rename_i h0
    split at hok
    · simp at hok
    · split at hok
      · simp at hok
      · rename_i hnf
        split at hok
        · simp at hok
        · rename_i h3
          exact ⟨h0, by simpa using hnf, h3⟩

/-- Read of a stored identifier that parses, when GetByOperation returns no
error: it writes the two attributes and returns no error. -/
theorem read_stored_found {σ : Type} (codec : Codec) (meta : Client σ) (d : ResourceData)
    (s : σ) (id : OperationTagId) (hid : codec.OperationTagID d.Id = .ok id)
    (h : (meta.ApiManagement.TagClient.GetByOperation s id.ResourceGroup id.ServiceName
      id.ApiName id.OperationName id.TagName).err = none) :
    resourceApiManagementApiOperationTagRead codec meta d s =
      ⟨none,
       (d.Set "api_operation_id" (codec.ApiOperationId_ID (NewApiOperationID
          meta.Account.SubscriptionId id.ResourceGroup id.ServiceName id.ApiName
          id.OperationName))).Set "name" id.TagName,
       (meta.ApiManagement.TagClient.GetByOperation s id.ResourceGroup id.ServiceName
          id.ApiName id.OperationName id.TagName).remote,
       [.GetByOperation id.ResourceGroup id.ServiceName id.ApiName id.OperationName id.TagName,
        .Set "api_operation_id" (codec.ApiOperationId_ID (NewApiOperationID
          meta.Account.SubscriptionId id.ResourceGroup id.ServiceName id.ApiName
          id.OperationName)),
        .Set "name" id.TagName]⟩ := by
  simp only [resourceApiManagementApiOperationTagRead, hid, h]

/-- Read of a stored identifier that parses, when GetByOperation fails with a
response other than not-found: it returns the wrapped error and changes
nothing. -/
theorem read_stored_failed {σ : Type} (codec : Codec) (meta : Client σ) (d : ResourceData)
    (s : σ) (id : OperationTagId) (c : String) (hid : codec.OperationTagID d.Id = .ok id)
    (h : (meta.ApiManagement.TagClient.GetByOperation s id.ResourceGroup id.ServiceName
      id.ApiName id.OperationName id.TagName).err = some c)
    (hnf : ResponseWasNotFound (meta.ApiManagement.TagClient.GetByOperation s id.ResourceGroup
      id.ServiceName id.ApiName id.OperationName id.TagName).resp = false) :
    resourceApiManagementApiOperationTagRead codec meta d s =
      ⟨some (.retrieving id c), d,
       (meta.ApiManagement.TagClient.GetByOperation s id.ResourceGroup id.ServiceName
          id.ApiName id.OperationName id.TagName).remote,
       [.GetByOperation id.ResourceGroup id.ServiceName id.ApiName id.OperationName
          id.TagName]⟩ := by
  simp [resourceApiManagementApiOperationTagRead, hid, h, hnf]

/-- The recording client records assignments, an assignment being held when it
is in the list of the remote state. -/
theorem recordingClient_records :
    RecordsAssignments recordingClient (fun s k => k ∈ s.assignments) where
  get_keeps := by
    intro s rg svc t k
    simp only [recordingClient]
    split <;> rfl
  probe_keeps := by
    intro s rg svc api op t k
    simp only [recordingClient]
    split <;> rfl
  probe_found := by
    intro s rg svc api op t h
    simp [recordingClient, h, ResponseWasNotFound]
  probe_absent := by
    intro s rg svc api op t h
    simp [recordingClient, h, ResponseWasNotFound]
  assign_records := by
    intro s rg svc api op t _
    simp [recordingClient]

/-- C2, refuted as stated: with `opIdA` and tag `acctest-Tag-123` declared, the
tag Get answers not-found and the GetByOperation probe fails with a 500
response. The response of the probe is not a not-found response, yet Create
returns the wrapped probe error (line 93), not the import-required error. -/
theorem create_duplicate_counterexample :
    azureCodec.ApiOperationID ((declared opIdA "acctest-Tag-123").Get "api_operation_id")
        = .ok ⟨"sub-a", "rg1", "svc1", "my-api", "my-op"⟩
    ∧ ResponseWasNotFound (assignmentProbe azureCodec (clientOf "sub-a" scriptedClient)
        ⟨"sub-a", "rg1", "svc1", "my-api", "my-op"⟩ "acctest-Tag-123"
        [(some 404, some "not found"), (some 500, some "server error")]).resp = false
    ∧ (resourceApiManagementApiOperationTagCreate azureCodec (clientOf "sub-a" scriptedClient)
        (declared opIdA "acctest-Tag-123")
        [(some 404, some "not found"), (some 500, some "server error")]).err
        = some (.checkingTagAssignment
            ⟨"sub-a", "rg1", "svc1", "my-api", "my-op", "acctest-Tag-123"⟩ "server error")
    ∧ (resourceApiManagementApiOperationTagCreate azureCodec (clientOf "sub-a" scriptedClient)
        (declared opIdA "acctest-Tag-123")
        [(some 404, some "not found"), (some 500, some "server error")]).err
        ≠ some (.importAsExists "azurerm_api_management_api_operation_tag" tagIdA) := by
  refine ⟨rfl, rfl, rfl, ?_⟩
  decide

/-- C2, amended. Duplicate-create rejection. (1) When `api_operation_id`
parses, the tag probe does not abort Create and the response of the
GetByOperation probe is not a not-found response, Create calls neither
AssignToOperation nor SetId and leaves the resource data unchanged; and when
the probe found the assignment, that is, it also returned no error, Create
returns the import-required error for resource type
`azurerm_api_management_api_operation_tag` naming the derived id. (2) Against
any client that records assignments and does not hold the assignment yet, if
the tag probe aborts neither run, AssignToOperation returns no error and the
derived id parses back to its fields, then Create with a declared pair returns
no error and stores the derived id, and a second Create with the same pair in
the remote state the first one leaves returns the import-required error, again
without AssignToOperation or SetId. -/
theorem create_duplicate_rejected :
    (∀ {σ : Type} (codec : Codec) (meta : Client σ) (d : ResourceData) (s : σ)
        (a : ApiOperationId),
      codec.ApiOperationID (d.Get "api_operation_id") = .ok a →
      probeFailure (tagProbe codec meta a (d.Get "name") s) = none →
      ResponseWasNotFound (assignmentProbe codec meta a (d.Get "name") s).resp = false →
      ((assignmentProbe codec meta a (d.Get "name") s).err = none →
        (resourceApiManagementApiOperationTagCreate codec meta d s).err
          = some (.importAsExists "azurerm_api_management_api_operation_tag"
              (codec.ApiOperationTagId_ID (derivedId meta a (d.Get "name")))))
      ∧ (∀ ev ∈ (resourceApiManagementApiOperationTagCreate codec meta d s).events,
          ev.isAssign = false ∧ ev.isSetId = false)
      ∧ (resourceApiManagementApiOperationTagCreate codec meta d s).d = d)
    ∧ (∀ {σ : Type} (codec : Codec) (meta : Client σ)
        (holds : σ → String × String × String × String × String → Prop)
        (d d2 : ResourceData) (s : σ) (a : ApiOperationId),
      RecordsAssignments meta.ApiManagement.TagClient holds →
      codec.ApiOperationID (d.Get "api_operation_id") = .ok a →
      codec.OperationTagID (codec.ApiOperationTagId_ID (derivedId meta a (d.Get "name")))
        = .ok ⟨meta.Account.SubscriptionId, a.ResourceGroup, a.ServiceName, a.ApiName,
            a.OperationName, d.Get "name"⟩ →
      ¬ holds s (a.ResourceGroup, a.ServiceName, a.ApiName, a.OperationName, d.Get "name") →
      probeFailure (tagProbe codec meta a (d.Get "name") s) = none →
      (assignCall codec meta a (d.Get "name") s).err = none →
      probeFailure (tagProbe codec meta a (d.Get "name")
        (resourceApiManagementApiOperationTagCreate codec meta d s).remote) = none →
      d2.Get "api_operation_id" = d.Get "api_operation_id" →
      d2.Get "name" = d.Get "name" →
      (resourceApiManagementApiOperationTagCreate codec meta d s).err = none
      ∧ (resourceApiManagementApiOperationTagCreate codec meta d s).d.Id
          = codec.ApiOperationTagId_ID (derivedId meta a (d.Get "name"))
      ∧ (resourceApiManagementApiOperationTagCreate codec meta d2
          (resourceApiManagementApiOperationTagCreate codec meta d s).remote).err
          = some (.importAsExists "azurerm_api_management_api_operation_tag"
              (codec.ApiOperationTagId_ID (derivedId meta a (d.Get "name"))))
      ∧ (∀ ev ∈ (resourceApiManagementApiOperationTagCreate codec meta d2
            (resourceApiManagementApiOperationTagCreate codec meta d s).remote).events,
          ev.isAssign = false ∧ ev.isSetId = false)
      ∧ (resourceApiManagementApiOperationTagCreate codec meta d2
          (resourceApiManagementApiOperationTagCreate codec meta d s).remote).d = d2) := by
  refine ⟨fun codec meta d s a hX htag hnf =>
    ⟨(create_stops_at_found codec meta d s a hX htag hnf).1,
     (create_stops_at_found codec meta d s a hX htag hnf).2.2⟩, ?_⟩
  intro σ codec meta holds d d2 s a hrec hX hrt hfresh htag hassign htag2 hd2X hd2N
  have hnot1 : ¬ holds (tagProbe codec meta a (d.Get "name") s).remote
      (a.ResourceGroup, a.ServiceName, a.ApiName, a.OperationName, d.Get "name") :=
    fun h => hfresh ((hrec.get_keeps _ _ _ _ _).1 h)
  have hprobe : ResponseWasNotFound (assignmentProbe codec meta a (d.Get "name") s).resp
      = true := (hrec.probe_absent _ _ _ _ _ _ hnot1).2
  have hreach := create_reaches_read codec meta d s a hX htag hprobe hassign
  have hheld : holds (assignCall codec meta a (d.Get "name") s).remote
      (a.ResourceGroup, a.ServiceName, a.ApiName, a.OperationName, d.Get "name") :=
    hrec.assign_records _ _ _ _ _ _ hassign
  have hread := read_stored_found codec meta
    (d.SetId (codec.ApiOperationTagId_ID (derivedId meta a (d.Get "name"))))
    (assignCall codec meta a (d.Get "name") s).remote _ hrt
    (hrec.probe_found _ _ _ _ _ _ hheld).1
  rw [hread] at hreach
  have hheld4 : holds (resourceApiManagementApiOperationTagCreate codec meta d s).remote
      (a.ResourceGroup, a.ServiceName, a.ApiName, a.OperationName, d.Get "name") := by
    rw [hreach]
    exact (hrec.probe_keeps _ _ _ _ _ _ _).2 hheld
  have hX2 : codec.ApiOperationID (d2.Get "api_operation_id") = .ok a := by rw [hd2X]; exact hX
  have hheld5 : holds (tagProbe codec meta a (d.Get "name")
      (resourceApiManagementApiOperationTagCreate codec meta d s).remote).remote
      (a.ResourceGroup, a.ServiceName, a.ApiName, a.OperationName, d.Get "name") :=
    (hrec.get_keeps _ _ _ _ _).2 hheld4
  have h := create_stops_at_found codec meta d2
    (resourceApiManagementApiOperationTagCreate codec meta d s).remote a hX2
    (by rw [hd2N]; exact htag2)
    (by rw [hd2N]; exact (hrec.probe_found _ _ _ _ _ _ hheld5).2)
  rw [hd2N] at h
  refine ⟨?_, ?_, h.1 (hrec.probe_found _ _ _ _ _ _ hheld5).1, h.2.2⟩
  · rw [hreach]
  · rw [hreach]
    rfl

/-- Witness of C2 amended: with `opIdA` and tag `acctest-Tag-123` declared,
Create against a recording remote that already holds the assignment returns the
import-required error; against an empty recording remote the first Create
succeeds and a second one returns the import-required error. -/
theorem create_duplicate_rejected_witness :
    azureCodec.ApiOperationID ((declared opIdA "acctest-Tag-123").Get "api_operation_id")
        = .ok ⟨"sub-a", "rg1", "svc1", "my-api", "my-op"⟩
    ∧ (resourceApiManagementApiOperationTagCreate azureCodec (clientOf "sub-a" recordingClient)
        (declared opIdA "acctest-Tag-123")
        ⟨[], [("rg1", "svc1", "my-api", "my-op", "acctest-Tag-123")]⟩).err
        = some (.importAsExists "azurerm_api_management_api_operation_tag" tagIdA)
    ∧ (resourceApiManagementApiOperationTagCreate azureCodec (clientOf "sub-a" recordingClient)
        (declared opIdA "acctest-Tag-123") ⟨[], []⟩).err = none
    ∧ (resourceApiManagementApiOperationTagCreate azureCodec (clientOf "sub-a" recordingClient)
        (declared opIdA "acctest-Tag-123") ⟨[], []⟩).d.Id = tagIdA
    ∧ (resourceApiManagementApiOperationTagCreate azureCodec (clientOf "sub-a" recordingClient)
        (declared opIdA "acctest-Tag-123")
        (resourceApiManagementApiOperationTagCreate azureCodec (clientOf "sub-a" recordingClient)
          (declared opIdA "acctest-Tag-123") ⟨[], []⟩).remote).err
        = some (.importAsExists "azurerm_api_management_api_operation_tag" tagIdA) :=
  ⟨rfl,
   (create_duplicate_rejected.1 azureCodec (clientOf "sub-a" recordingClient)
      (declared opIdA "acctest-Tag-123")
      ⟨[], [("rg1", "svc1", "my-api", "my-op", "acctest-Tag-123")]⟩
      ⟨"sub-a", "rg1", "svc1", "my-api", "my-op"⟩ rfl rfl rfl).1 rfl,
   (create_duplicate_rejected.2 azureCodec (clientOf "sub-a" recordingClient)
      (fun s k => k ∈ s.assignments) (declared opIdA "acctest-Tag-123")
      (declared opIdA "acctest-Tag-123") ⟨[], []⟩ ⟨"sub-a", "rg1", "svc1", "my-api", "my-op"⟩
      recordingClient_records rfl rfl (by decide) rfl rfl rfl rfl rfl).1,
   (create_duplicate_rejected.2 azureCodec (clientOf "sub-a" recordingClient)
      (fun s k => k ∈ s.assignments) (declared opIdA "acctest-Tag-123")
      (declared opIdA "acctest-Tag-123") ⟨[], []⟩ ⟨"sub-a", "rg1", "svc1", "my-api", "my-op"⟩
      recordingClient_records rfl rfl (by decide) rfl rfl rfl rfl rfl).2.1,
   (create_duplicate_rejected.2 azureCodec (clientOf "sub-a" recordingClient)
      (fun s k => k ∈ s.assignments) (declared opIdA "acctest-Tag-123")
      (declared opIdA "acctest-Tag-123") ⟨[], []⟩ ⟨"sub-a", "rg1", "svc1", "my-api", "my-op"⟩
      recordingClient_records rfl rfl (by decide) rfl rfl rfl rfl rfl).2.2.1⟩

/-! ## The deprecated `display_name` -/

/-- Read does the same on states that differ only in `display_name`. -/
theorem read_sameOutcome {σ : Type} (codec : Codec) (meta : Client σ) (d1 d2 : ResourceData)
    (s : σ) (h : agreeUpToDisplayName d1 d2) :
    sameOutcome (resourceApiManagementApiOperationTagRead codec meta d1 s)
      (resourceApiManagementApiOperationTagRead codec meta d2 s) := by
  obtain ⟨hid, hk⟩ := h
  simp only [sameOutcome, resourceApiManagementApiOperationTagRead, hid]
  split
  · exact ⟨rfl, rfl, rfl, hid, hk⟩
  · split
    · split
      · exact ⟨rfl, rfl, rfl, rfl, hk⟩
      · exact ⟨rfl, rfl, rfl, hid, hk⟩
    · refine ⟨rfl, rfl, rfl, hid, ?_⟩
      intro k hne
      have := hk k hne
      simp only [ResourceData.Get, ResourceData.Set] at this ⊢
      rw [this]

/-- Create does the same on states that differ only in `display_name`. -/
theorem create_sameOutcome {σ : Type} (codec : Codec) (meta : Client σ) (d1 d2 : ResourceData)
    (s : σ) (h : agreeUpToDisplayName d1 d2) :
    sameOutcome (resourceApiManagementApiOperationTagCreate codec meta d1 s)
      (resourceApiManagementApiOperationTagCreate codec meta d2 s) := by
  have hX := h.2 "api_operation_id" (by decide)
  have hN := h.2 "name" (by decide)
  simp only [sameOutcome, resourceApiManagementApiOperationTagCreate, hX, hN]
  split
  · exact ⟨rfl, rfl, rfl, h⟩
  · split
    · exact ⟨rfl, rfl, rfl, h⟩
    · split
      · exact ⟨rfl, rfl, rfl, h⟩
      · split
        · exact ⟨rfl, rfl, rfl, h⟩
        · split
          · exact ⟨rfl, rfl, rfl, h⟩
          · have key : ∀ (v : String) (s0 : σ),
                sameOutcome (resourceApiManagementApiOperationTagRead codec meta (d1.SetId v) s0)
                  (resourceApiManagementApiOperationTagRead codec meta (d2.SetId v) s0) :=
              fun v s0 => read_sameOutcome codec meta (d1.SetId v) (d2.SetId v) s0 ⟨rfl, h.2⟩
            dsimp only
            exact ⟨(key _ _).1, congrArg _ (key _ _).2.1, (key _ _).2.2.1, (key _ _).2.2.2⟩

/-- Delete does the same on states that differ only in `display_name`. -/
theorem delete_sameOutcome {σ : Type} (codec : Codec) (meta : Client σ) (d1 d2 : ResourceData)
    (s : σ) (h : agreeUpToDisplayName d1 d2) :
    sameOutcome (resourceApiManagementApiOperationTagDelete codec meta d1 s)
      (resourceApiManagementApiOperationTagDelete codec meta d2 s) := by
  simp only [sameOutcome, resourceApiManagementApiOperationTagDelete, h.1]
  split
  · exact ⟨rfl, rfl, rfl, h⟩
  · split
    · exact ⟨rfl, rfl, rfl, h⟩
    · exact ⟨rfl, rfl, rfl, h⟩

/-- C10. `display_name` is inert: on two states that differ only in the value
of `display_name`, each of Create, Read and Delete produces the same effects
(the same remote calls with the same arguments, the same writes), the same
returned error and the same remote state, and resource data that again differ
only in `display_name`; Read never writes `display_name` and leaves its value
unchanged; and the schema has the key `display_name` exactly when the
four-point-oh beta flag is off. -/
theorem display_name_inert :
    (∀ {σ : Type} (codec : Codec) (meta : Client σ) (d1 d2 : ResourceData) (s : σ),
      agreeUpToDisplayName d1 d2 →
      sameOutcome (resourceApiManagementApiOperationTagCreate codec meta d1 s)
          (resourceApiManagementApiOperationTagCreate codec meta d2 s)
      ∧ sameOutcome (resourceApiManagementApiOperationTagRead codec meta d1 s)
          (resourceApiManagementApiOperationTagRead codec meta d2 s)
      ∧ sameOutcome (resourceApiManagementApiOperationTagDelete codec meta d1 s)
          (resourceApiManagementApiOperationTagDelete codec meta d2 s))
    ∧ (∀ {σ : Type} (codec : Codec) (meta : Client σ) (d : ResourceData) (s : σ),
      (resourceApiManagementApiOperationTagRead codec meta d s).d.Get "display_name"
          = d.Get "display_name"
      ∧ ∀ ev ∈ (resourceApiManagementApiOperationTagRead codec meta d s).events,
          ev.isSetOf "display_name" = false)
    ∧ (∀ fourPointOhBeta : Bool,
      "display_name" ∈ (resourceApiManagementApiOperationTag fourPointOhBeta).map Prod.fst
        ↔ fourPointOhBeta = false) := by
  refine ⟨?_, ?_, ?_⟩
  · intro σ codec meta d1 d2 s h
    exact ⟨create_sameOutcome codec meta d1 d2 s h, read_sameOutcome codec meta d1 d2 s h,
      delete_sameOutcome codec meta d1 d2 s h⟩
  · intro σ codec meta d s
    simp only [resourceApiManagementApiOperationTagRead]
    split
    · exact ⟨rfl, by simp⟩
    · split
      · split
        · exact ⟨rfl, by simp [Event.isSetOf]⟩
        · exact ⟨rfl, by simp [Event.isSetOf]⟩
      · refine ⟨by simp [ResourceData.Get, ResourceData.Set], ?_⟩
        intro ev hev
        simp only [List.mem_cons, List.mem_singleton, List.not_mem_nil, or_false] at hev
        rcases hev with rfl | rfl | rfl
        · rfl
        · simp only [Event.isSetOf]; decide
        · simp only [Event.isSetOf]; decide
  · intro fourPointOhBeta
    cases fourPointOhBeta <;> decide

/-- Witness of C10: the declared state with `opIdA` and tag `acctest-Tag-123`
and the same state with `display_name` set agree up to `display_name`, and
Create against an empty recording remote does the same on both. -/
theorem display_name_inert_witness :
    agreeUpToDisplayName (declared opIdA "acctest-Tag-123")
        ((declared opIdA "acctest-Tag-123").Set "display_name" "Tag One")
    ∧ sameOutcome
        (resourceApiManagementApiOperationTagCreate azureCodec (clientOf "sub-a" recordingClient)
          (declared opIdA "acctest-Tag-123") ⟨[], []⟩)
        (resourceApiManagementApiOperationTagCreate azureCodec (clientOf "sub-a" recordingClient)
          ((declared opIdA "acctest-Tag-123").Set "display_name" "Tag One") ⟨[], []⟩)
    ∧ ((declared opIdA "acctest-Tag-123").Set "display_name" "Tag One").Get "display_name"
        ≠ (declared opIdA "acctest-Tag-123").Get "display_name" :=
  have h : agreeUpToDisplayName (declared opIdA "acctest-Tag-123")
      ((declared opIdA "acctest-Tag-123").Set "display_name" "Tag One") :=
    ⟨rfl, fun k hk => by simp [ResourceData.Get, ResourceData.Set, hk]⟩
  ⟨h,
   (display_name_inert.1 azureCodec (clientOf "sub-a" recordingClient)
      (declared opIdA "acctest-Tag-123")
      ((declared opIdA "acctest-Tag-123").Set "display_name" "Tag One") ⟨[], []⟩ h).1,
   by decide⟩

/-! ## The subscription id of the client -/

/-- C1, refuted as stated, at two inputs with `opIdA` (subscription `sub-a`)
and tag `acctest-Tag-123` declared. (1) The client is configured with
subscription `sub-b`: Create against an empty recording remote returns no
error and its final Read writes `api_operation_id = opIdB`, which is not the
declared value. (2) The client is configured with `sub-a` and the remote
answers not-found to both probes, accepts AssignToOperation and answers
not-found to the GetByOperation of the final Read: Create returns no error and
the Read writes no attribute at all, it only clears the stored id. -/
theorem create_then_read_counterexample :
    azureCodec.ApiOperationID ((declared opIdA "acctest-Tag-123").Get "api_operation_id")
        = .ok ⟨"sub-a", "rg1", "svc1", "my-api", "my-op"⟩
    ∧ (resourceApiManagementApiOperationTagCreate azureCodec (clientOf "sub-b" recordingClient)
        (declared opIdA "acctest-Tag-123") ⟨[], []⟩).err = none
    ∧ (resourceApiManagementApiOperationTagCreate azureCodec (clientOf "sub-b" recordingClient)
        (declared opIdA "acctest-Tag-123") ⟨[], []⟩).events.drop 5
        = [.Set "api_operation_id" opIdB, .Set "name" "acctest-Tag-123"]
    ∧ (resourceApiManagementApiOperationTagCreate azureCodec (clientOf "sub-b" recordingClient)
        (declared opIdA "acctest-Tag-123") ⟨[], []⟩).d.Get "api_operation_id" = opIdB
    ∧ ¬ ((resourceApiManagementApiOperationTagCreate azureCodec (clientOf "sub-b" recordingClient)
          (declared opIdA "acctest-Tag-123") ⟨[], []⟩).d.Get "api_operation_id"
          = (declared opIdA "acctest-Tag-123").Get "api_operation_id"
        ∧ (resourceApiManagementApiOperationTagCreate azureCodec (clientOf "sub-b" recordingClient)
          (declared opIdA "acctest-Tag-123") ⟨[], []⟩).d.Get "name"
          = (declared opIdA "acctest-Tag-123").Get "name")
    ∧ (resourceApiManagementApiOperationTagCreate azureCodec (clientOf "sub-a" scriptedClient)
        (declared opIdA "acctest-Tag-123")
        [(some 404, some "not found"), (some 404, some "not found"), (some 201, none),
         (some 404, some "not found")]).err = none
    ∧ (resourceApiManagementApiOperationTagCreate azureCodec (clientOf "sub-a" scriptedClient)
        (declared opIdA "acctest-Tag-123")
        [(some 404, some "not found"), (some 404, some "not found"), (some 201, none),
         (some 404, some "not found")]).events
        = [.Get "rg1" "svc1"
            "/subscriptions/sub-a/resourceGroups/rg1/providers/Microsoft.ApiManagement/service/svc1/tags/acctest-Tag-123",
           .GetByOperation "rg1" "svc1" "my-api" "my-op" "acctest-Tag-123",
           .AssignToOperation "rg1" "svc1" "my-api" "my-op" "acctest-Tag-123",
           .SetId tagIdA,
           .GetByOperation "rg1" "svc1" "my-api" "my-op" "acctest-Tag-123",
           .SetId ""] := by
  refine ⟨rfl, rfl, rfl, rfl, ?_, rfl, rfl⟩
  decide

/-- C1, amended. Create-then-Read consistency: when the declared
`api_operation_id` parses, the account subscription id of the client is the
subscription encoded in it, the declared string is the encoding of its parsed
fields, the derived assignment id parses back to its fields, Create returns no
error and the GetByOperation call of its final Read returned no error, then
that Read writes the two attributes with the declared values: the effects of
Create are the three calls, `d.SetId` of the derived id, the GetByOperation of
the Read and the `d.Set` of `api_operation_id` and of `name` to the declared
values; the state Create leaves holds these values and the derived id; and they
are written by that Read, which leaves them in every state holding the derived
id, whatever attributes it held before. -/
theorem create_then_read_consistent {σ : Type} (codec : Codec) (meta : Client σ)
    (d : ResourceData) (s : σ) (a : ApiOperationId)
    (hX : codec.ApiOperationID (d.Get "api_operation_id") = .ok a)
    (hsub : meta.Account.SubscriptionId = a.SubscriptionId)
    (hcanon : codec.ApiOperationId_ID a = d.Get "api_operation_id")
    (hrt : codec.OperationTagID (codec.ApiOperationTagId_ID (derivedId meta a (d.Get "name")))
      = .ok ⟨meta.Account.SubscriptionId, a.ResourceGroup, a.ServiceName, a.ApiName,
          a.OperationName, d.Get "name"⟩)
    (hok : (resourceApiManagementApiOperationTagCreate codec meta d s).err = none)
    (hfound : (readProbe codec meta a (d.Get "name") s).err = none) :
    (resourceApiManagementApiOperationTagCreate codec meta d s).events =
        [.Get a.ResourceGroup a.ServiceName (codec.TagId_ID (NewTagID
            meta.Account.SubscriptionId a.ResourceGroup a.ServiceName (d.Get "name"))),
         .GetByOperation a.ResourceGroup a.ServiceName a.ApiName a.OperationName (d.Get "name"),
         .AssignToOperation a.ResourceGroup a.ServiceName a.ApiName a.OperationName
            (d.Get "name"),
         .SetId (codec.ApiOperationTagId_ID (derivedId meta a (d.Get "name"))),
         .GetByOperation a.ResourceGroup a.ServiceName a.ApiName a.OperationName (d.Get "name"),
         .Set "api_operation_id" (d.Get "api_operation_id"),
         .Set "name" (d.Get "name")]
    ∧ (resourceApiManagementApiOperationTagCreate codec meta d s).d.Get "api_operation_id"
        = d.Get "api_operation_id"
    ∧ (resourceApiManagementApiOperationTagCreate codec meta d s).d.Get "name" = d.Get "name"
    ∧ (resourceApiManagementApiOperationTagCreate codec meta d s).d.Id
        = codec.ApiOperationTagId_ID (derivedId meta a (d.Get "name"))
    ∧ (resourceApiManagementApiOperationTagCreate codec meta d s).d
        = (resourceApiManagementApiOperationTagRead codec meta
            (d.SetId (codec.ApiOperationTagId_ID (derivedId meta a (d.Get "name"))))
            (assignCall codec meta a (d.Get "name") s).remote).d
    ∧ ∀ d0 : ResourceData,
        d0.Id = codec.ApiOperationTagId_ID (derivedId meta a (d.Get "name")) →
        (resourceApiManagementApiOperationTagRead codec meta d0
            (assignCall codec meta a (d.Get "name") s).remote).d.Get "api_operation_id"
          = d.Get "api_operation_id"
        ∧ (resourceApiManagementApiOperationTagRead codec meta d0
            (assignCall codec meta a (d.Get "name") s).remote).d.Get "name" = d.Get "name" := by
  have ha : NewApiOperationID a.SubscriptionId a.ResourceGroup a.ServiceName a.ApiName
      a.OperationName = a := rfl
  obtain ⟨htag, hprobe, hassign⟩ := create_ok_steps codec meta d s a hX hok
  have hreach := create_reaches_read codec meta d s a hX htag hprobe hassign
  have hread : ∀ d0 : ResourceData,
      d0.Id = codec.ApiOperationTagId_ID (derivedId meta a (d.Get "name")) →
      resourceApiManagementApiOperationTagRead codec meta d0
          (assignCall codec meta a (d.Get "name") s).remote
        = ⟨none, (d0.Set "api_operation_id" (d.Get "api_operation_id")).Set "name"
              (d.Get "name"),
            (readProbe codec meta a (d.Get "name") s).remote,
            [.GetByOperation a.ResourceGroup a.ServiceName a.ApiName a.OperationName
                (d.Get "name"),
             .Set "api_operation_id" (d.Get "api_operation_id"),
             .Set "name" (d.Get "name")]⟩ := by
    intro d0 hd0
    have h := read_stored_found codec meta d0 (assignCall codec meta a (d.Get "name") s).remote
      ⟨meta.Account.SubscriptionId, a.ResourceGroup, a.ServiceName, a.ApiName,
        a.OperationName, d.Get "name"⟩ (by rw [hd0]; exact hrt) hfound
    rw [h]
    simp only [hsub, ha, hcanon, readProbe]
  have hmine := hread (d.SetId (codec.ApiOperationTagId_ID (derivedId meta a (d.Get "name"))))
    rfl
  refine ⟨?_, ?_, ?_, ?_, ?_, ?_⟩
  · rw [hreach, hmine]
    rfl
  · rw [hreach, hmine]
    simp [ResourceData.Get, ResourceData.Set]
  · rw [hreach, hmine]
    simp [ResourceData.Get, ResourceData.Set]
  · rw [hreach, hmine]
    rfl
  · rw [hreach]
  · intro d0 hd0
    rw [hread d0 hd0]
    simp [ResourceData.Get, ResourceData.Set]

/-- Witness of C1 amended: with `opIdA` declared and the client in `sub-a`,
Create against an empty recording remote returns no error, its final Read
finds the assignment and writes the declared values. -/
theorem create_then_read_consistent_witness :
    azureCodec.ApiOperationID ((declared opIdA "acctest-Tag-123").Get "api_operation_id")
        = .ok ⟨"sub-a", "rg1", "svc1", "my-api", "my-op"⟩
    ∧ (resourceApiManagementApiOperationTagCreate azureCodec (clientOf "sub-a" recordingClient)
        (declared opIdA "acctest-Tag-123") ⟨[], []⟩).err = none
    ∧ (readProbe azureCodec (clientOf "sub-a" recordingClient)
        ⟨"sub-a", "rg1", "svc1", "my-api", "my-op"⟩ "acctest-Tag-123" ⟨[], []⟩).err = none
    ∧ (resourceApiManagementApiOperationTagCreate azureCodec (clientOf "sub-a" recordingClient)
        (declared opIdA "acctest-Tag-123") ⟨[], []⟩).events =
        [.Get "rg1" "svc1"
            "/subscriptions/sub-a/resourceGroups/rg1/providers/Microsoft.ApiManagement/service/svc1/tags/acctest-Tag-123",
         .GetByOperation "rg1" "svc1" "my-api" "my-op" "acctest-Tag-123",
         .AssignToOperation "rg1" "svc1" "my-api" "my-op" "acctest-Tag-123",
         .SetId tagIdA,
         .GetByOperation "rg1" "svc1" "my-api" "my-op" "acctest-Tag-123",
         .Set "api_operation_id" opIdA,
         .Set "name" "acctest-Tag-123"]
    ∧ (resourceApiManagementApiOperationTagCreate azureCodec (clientOf "sub-a" recordingClient)
        (declared opIdA "acctest-Tag-123") ⟨[], []⟩).d.Get "api_operation_id" = opIdA
    ∧ (resourceApiManagementApiOperationTagCreate azureCodec (clientOf "sub-a" recordingClient)
        (declared opIdA "acctest-Tag-123") ⟨[], []⟩).d.Get "name" = "acctest-Tag-123"
    ∧ (resourceApiManagementApiOperationTagRead azureCodec (clientOf "sub-a" recordingClient)
        (stored tagIdA)
        (assignCall azureCodec (clientOf "sub-a" recordingClient)
          ⟨"sub-a", "rg1", "svc1", "my-api", "my-op"⟩ "acctest-Tag-123" ⟨[], []⟩).remote).d.Get
          "api_operation_id" = opIdA :=
  ⟨rfl, rfl, rfl,
   (create_then_read_consistent azureCodec (clientOf "sub-a" recordingClient)
      (declared opIdA "acctest-Tag-123") ⟨[], []⟩ ⟨"sub-a", "rg1", "svc1", "my-api", "my-op"⟩
      rfl rfl rfl rfl rfl rfl).1,
   (create_then_read_consistent azureCodec (clientOf "sub-a" recordingClient)
      (declared opIdA "acctest-Tag-123") ⟨[], []⟩ ⟨"sub-a", "rg1", "svc1", "my-api", "my-op"⟩
      rfl rfl rfl rfl rfl rfl).2.1,
   (create_then_read_consistent azureCodec (clientOf "sub-a" recordingClient)
      (declared opIdA "acctest-Tag-123") ⟨[], []⟩ ⟨"sub-a", "rg1", "svc1", "my-api", "my-op"⟩
      rfl rfl rfl rfl rfl rfl).2.2.1,
   ((create_then_read_consistent azureCodec (clientOf "sub-a" recordingClient)
      (declared opIdA "acctest-Tag-123") ⟨[], []⟩ ⟨"sub-a", "rg1", "svc1", "my-api", "my-op"⟩
      rfl rfl rfl rfl rfl rfl).2.2.2.2.2 (stored tagIdA) rfl).1⟩

/-- C6, refuted as stated: the stored identifier is `tagIdA`, in subscription
`sub-a`, and the remote holds the assignment, so GetByOperation succeeds. A
client configured with `sub-a` writes `api_operation_id = opIdA`, a client
configured with `sub-b` writes `opIdB`: the two values differ, and the second
does not carry the subscription of the stored identifier. -/
theorem read_import_counterexample :
    (resourceApiManagementApiOperationTagRead azureCodec (clientOf "sub-a" recordingClient)
        (stored tagIdA) ⟨[], [("rg1", "svc1", "my-api", "my-op", "acctest-Tag-123")]⟩).err = none
    ∧ (resourceApiManagementApiOperationTagRead azureCodec (clientOf "sub-b" recordingClient)
        (stored tagIdA) ⟨[], [("rg1", "svc1", "my-api", "my-op", "acctest-Tag-123")]⟩).err = none
    ∧ (resourceApiManagementApiOperationTagRead azureCodec (clientOf "sub-a" recordingClient)
        (stored tagIdA) ⟨[], [("rg1", "svc1", "my-api", "my-op", "acctest-Tag-123")]⟩).d.Get
          "api_operation_id" = opIdA
    ∧ (resourceApiManagementApiOperationTagRead azureCodec (clientOf "sub-b" recordingClient)
        (stored tagIdA) ⟨[], [("rg1", "svc1", "my-api", "my-op", "acctest-Tag-123")]⟩).d.Get
          "api_operation_id" = opIdB
    ∧ (resourceApiManagementApiOperationTagRead azureCodec (clientOf "sub-a" recordingClient)
        (stored tagIdA) ⟨[], [("rg1", "svc1", "my-api", "my-op", "acctest-Tag-123")]⟩).d.Get
          "api_operation_id"
        ≠ (resourceApiManagementApiOperationTagRead azureCodec (clientOf "sub-b" recordingClient)
        (stored tagIdA) ⟨[], [("rg1", "svc1", "my-api", "my-op", "acctest-Tag-123")]⟩).d.Get
          "api_operation_id" := by
  refine ⟨rfl, rfl, rfl, rfl, ?_⟩
  decide

/-- C6, amended. Import contract: the attributes a successful Read writes
depend only on the stored identifier string and the account subscription id
of the client. For two invocations on the same stored identifier, whatever the
other attributes, the remote states and the tag clients, if both clients are
configured with the same subscription id and both GetByOperation calls succeed,
then both Reads return no error and write the same `api_operation_id` and
`name`: `name` is the tag name of the identifier, and `api_operation_id` is the
encoding of the subscription id of the client with the resource group, service,
api and operation of the identifier. -/
theorem read_import_contract {σ₁ σ₂ : Type} (codec : Codec) (meta₁ : Client σ₁)
    (meta₂ : Client σ₂) (d₁ d₂ : ResourceData) (s₁ : σ₁) (s₂ : σ₂) (id : OperationTagId)
    (hsame : d₁.Id = d₂.Id)
    (hid : codec.OperationTagID d₁.Id = .ok id)
    (hsub : meta₁.Account.SubscriptionId = meta₂.Account.SubscriptionId)
    (h₁ : (meta₁.ApiManagement.TagClient.GetByOperation s₁ id.ResourceGroup id.ServiceName
      id.ApiName id.OperationName id.TagName).err = none)
    (h₂ : (meta₂.ApiManagement.TagClient.GetByOperation s₂ id.ResourceGroup id.ServiceName
      id.ApiName id.OperationName id.TagName).err = none) :
    (resourceApiManagementApiOperationTagRead codec meta₁ d₁ s₁).err = none
    ∧ (resourceApiManagementApiOperationTagRead codec meta₂ d₂ s₂).err = none
    ∧ (resourceApiManagementApiOperationTagRead codec meta₁ d₁ s₁).d.Get "api_operation_id"
        = (resourceApiManagementApiOperationTagRead codec meta₂ d₂ s₂).d.Get "api_operation_id"
    ∧ (resourceApiManagementApiOperationTagRead codec meta₁ d₁ s₁).d.Get "name"
        = (resourceApiManagementApiOperationTagRead codec meta₂ d₂ s₂).d.Get "name"
    ∧ (resourceApiManagementApiOperationTagRead codec meta₁ d₁ s₁).d.Get "name" = id.TagName
    ∧ (resourceApiManagementApiOperationTagRead codec meta₁ d₁ s₁).d.Get "api_operation_id"
        = codec.ApiOperationId_ID (NewApiOperationID meta₁.Account.SubscriptionId
            id.ResourceGroup id.ServiceName id.ApiName id.OperationName) := by
  have hid₂ : codec.OperationTagID d₂.Id = .ok id := by rw [← hsame]; exact hid
  simp only [resourceApiManagementApiOperationTagRead, hid, hid₂, h₁, h₂, hsub]
  simp [ResourceData.Get, ResourceData.Set]

/-- Witness of C6 amended: two Reads of the stored id `tagIdA` by clients in
`sub-a`, one on a bare stored state against a recording remote and one on a
state with other attributes against a scripted remote, write the same values. -/
theorem read_import_contract_witness :
    azureCodec.OperationTagID (stored tagIdA).Id
        = .ok ⟨"sub-a", "rg1", "svc1", "my-api", "my-op", "acctest-Tag-123"⟩
    ∧ (resourceApiManagementApiOperationTagRead azureCodec (clientOf "sub-a" recordingClient)
        (stored tagIdA) ⟨[], [("rg1", "svc1", "my-api", "my-op", "acctest-Tag-123")]⟩).d.Get
          "api_operation_id"
        = (resourceApiManagementApiOperationTagRead azureCodec (clientOf "sub-a" scriptedClient)
            ((stored tagIdA).Set "display_name" "Tag One") [(some 200, none)]).d.Get
              "api_operation_id"
    ∧ (resourceApiManagementApiOperationTagRead azureCodec (clientOf "sub-a" recordingClient)
        (stored tagIdA) ⟨[], [("rg1", "svc1", "my-api", "my-op", "acctest-Tag-123")]⟩).d.Get
          "name" = "acctest-Tag-123" :=
  ⟨rfl,
   (read_import_contract azureCodec (clientOf "sub-a" recordingClient)
      (clientOf "sub-a" scriptedClient) (stored tagIdA)
      ((stored tagIdA).Set "display_name" "Tag One")
      ⟨[], [("rg1", "svc1", "my-api", "my-op", "acctest-Tag-123")]⟩ [(some 200, none)]
      ⟨"sub-a", "rg1", "svc1", "my-api", "my-op", "acctest-Tag-123"⟩ rfl rfl rfl rfl rfl).2.2.1,
   (read_import_contract azureCodec (clientOf "sub-a" recordingClient)
      (clientOf "sub-a" scriptedClient) (stored tagIdA)
      ((stored tagIdA).Set "display_name" "Tag One")
      ⟨[], [("rg1", "svc1", "my-api", "my-op", "acctest-Tag-123")]⟩ [(some 200, none)]
      ⟨"sub-a", "rg1", "svc1", "my-api", "my-op", "acctest-Tag-123"⟩ rfl rfl rfl rfl rfl).2.2.2.2.1⟩

/-! ## The identifier Create stores -/

/-- C7, refuted as stated, at two inputs with `opIdA` (subscription `sub-a`)
and tag `acctest-Tag-123` declared, where the probes allow the assignment and
AssignToOperation succeeds. (1) The client is configured with `sub-b`: the
identifier passed to `d.SetId` and left stored is `tagIdB`, which is not `opIdA`
followed by `/tags/acctest-Tag-123`. (2) The client is configured with `sub-a`
and the GetByOperation of the final Read answers not-found: `d.SetId` is called
with `tagIdA` and then with the empty string, and the stored identifier Create
leaves is empty. -/
theorem create_persisted_identifier_counterexample :
    azureCodec.ApiOperationID ((declared opIdA "acctest-Tag-123").Get "api_operation_id")
        = .ok ⟨"sub-a", "rg1", "svc1", "my-api", "my-op"⟩
    ∧ (assignCall azureCodec (clientOf "sub-b" recordingClient)
        ⟨"sub-a", "rg1", "svc1", "my-api", "my-op"⟩ "acctest-Tag-123" ⟨[], []⟩).err = none
    ∧ (resourceApiManagementApiOperationTagCreate azureCodec (clientOf "sub-b" recordingClient)
        (declared opIdA "acctest-Tag-123") ⟨[], []⟩).events.filter Event.isSetId
        = [.SetId tagIdB]
    ∧ (resourceApiManagementApiOperationTagCreate azureCodec (clientOf "sub-b" recordingClient)
        (declared opIdA "acctest-Tag-123") ⟨[], []⟩).d.Id = tagIdB
    ∧ tagIdB ≠ opIdA ++ "/tags/" ++ "acctest-Tag-123"
    ∧ (assignCall azureCodec (clientOf "sub-a" scriptedClient)
        ⟨"sub-a", "rg1", "svc1", "my-api", "my-op"⟩ "acctest-Tag-123"
        [(some 404, some "not found"), (some 404, some "not found"), (some 201, none),
         (some 404, some "not found")]).err = none
    ∧ (resourceApiManagementApiOperationTagCreate azureCodec (clientOf "sub-a" scriptedClient)
        (declared opIdA "acctest-Tag-123")
        [(some 404, some "not found"), (some 404, some "not found"), (some 201, none),
         (some 404, some "not found")]).events.filter Event.isSetId
        = [.SetId tagIdA, .SetId ""]
    ∧ (resourceApiManagementApiOperationTagCreate azureCodec (clientOf "sub-a" scriptedClient)
        (declared opIdA "acctest-Tag-123")
        [(some 404, some "not found"), (some 404, some "not found"), (some 201, none),
         (some 404, some "not found")]).d.Id = ""
    ∧ "" ≠ opIdA ++ "/tags/" ++ "acctest-Tag-123" := by
  refine ⟨rfl, rfl, rfl, rfl, ?_, rfl, rfl, rfl, ?_⟩ <;> decide

/-- C7, amended. Persisted identifier: when the declared `api_operation_id`
parses, neither probe aborts Create, the assignment probe answers not-found,
AssignToOperation succeeds, the derived identifier parses back to its fields
and the GetByOperation call of the final Read does not fail with a not-found
response, then the identifier Create leaves stored is the encoding of the
derived identifier (the account subscription id of the client with the resource
group, service, api and operation parsed from `api_operation_id` and the
declared tag name), `d.SetId` is called exactly once, with that identifier, as
the fourth effect after the three remote calls. When moreover the subscription
id of the client is the one encoded in `api_operation_id`, the declared string
is the encoding of its parsed fields, and the codec encodes an assignment as
its operation followed by `/tags/` and the tag name, the identifier stored and
passed to `d.SetId` is the declared string followed by `/tags/` and the name. -/
theorem create_persisted_identifier {σ : Type} (codec : Codec) (meta : Client σ)
    (d : ResourceData) (s : σ) (a : ApiOperationId)
    (hX : codec.ApiOperationID (d.Get "api_operation_id") = .ok a)
    (htag : probeFailure (tagProbe codec meta a (d.Get "name") s) = none)
    (hprobe : ResponseWasNotFound (assignmentProbe codec meta a (d.Get "name") s).resp = true)
    (hassign : (assignCall codec meta a (d.Get "name") s).err = none)
    (hrt : codec.OperationTagID (codec.ApiOperationTagId_ID (derivedId meta a (d.Get "name")))
      = .ok ⟨meta.Account.SubscriptionId, a.ResourceGroup, a.ServiceName, a.ApiName,
          a.OperationName, d.Get "name"⟩)
    (hkeep : (readProbe codec meta a (d.Get "name") s).err = none
      ∨ ResponseWasNotFound (readProbe codec meta a (d.Get "name") s).resp = false) :
    (resourceApiManagementApiOperationTagCreate codec meta d s).d.Id
        = codec.ApiOperationTagId_ID (derivedId meta a (d.Get "name"))
    ∧ (resourceApiManagementApiOperationTagCreate codec meta d s).events.filter Event.isSetId
        = [.SetId (codec.ApiOperationTagId_ID (derivedId meta a (d.Get "name")))]
    ∧ (resourceApiManagementApiOperationTagCreate codec meta d s).events.take 4 =
        [.Get a.ResourceGroup a.ServiceName (codec.TagId_ID (NewTagID
            meta.Account.SubscriptionId a.ResourceGroup a.ServiceName (d.Get "name"))),
         .GetByOperation a.ResourceGroup a.ServiceName a.ApiName a.OperationName (d.Get "name"),
         .AssignToOperation a.ResourceGroup a.ServiceName a.ApiName a.OperationName
            (d.Get "name"),
         .SetId (codec.ApiOperationTagId_ID (derivedId meta a (d.Get "name")))]
    ∧ (meta.Account.SubscriptionId = a.SubscriptionId →
        codec.ApiOperationId_ID a = d.Get "api_operation_id" →
        codec.ApiOperationTagId_ID (derivedId meta a (d.Get "name"))
          = codec.ApiOperationId_ID (NewApiOperationID meta.Account.SubscriptionId
              a.ResourceGroup a.ServiceName a.ApiName a.OperationName)
            ++ "/tags/" ++ d.Get "name" →
        (resourceApiManagementApiOperationTagCreate codec meta d s).d.Id
          = d.Get "api_operation_id" ++ "/tags/" ++ d.Get "name"
        ∧ (resourceApiManagementApiOperationTagCreate codec meta d s).events.filter
            Event.isSetId
          = [.SetId (d.Get "api_operation_id" ++ "/tags/" ++ d.Get "name")]) := by
  have hreach := create_reaches_read codec meta d s a hX htag hprobe hassign
  have hmain : (resourceApiManagementApiOperationTagCreate codec meta d s).d.Id
        = codec.ApiOperationTagId_ID (derivedId meta a (d.Get "name"))
      ∧ (resourceApiManagementApiOperationTagCreate codec meta d s).events.filter Event.isSetId
        = [.SetId (codec.ApiOperationTagId_ID (derivedId meta a (d.Get "name")))] := by
    cases herr : (readProbe codec meta a (d.Get "name") s).err with
    | none =>
      have h := read_stored_found codec meta
        (d.SetId (codec.ApiOperationTagId_ID (derivedId meta a (d.Get "name"))))
        (assignCall codec meta a (d.Get "name") s).remote _ hrt herr
      rw [hreach, h]
      exact ⟨rfl, by simp [List.filter, Event.isSetId]⟩
    | some c =>
      have hnf : ResponseWasNotFound (readProbe codec meta a (d.Get "name") s).resp = false := by
        rcases hkeep with h | h
        · rw [herr] at h
          exact absurd h (by simp)
        · exact h
      have h := read_stored_failed codec meta
        (d.SetId (codec.ApiOperationTagId_ID (derivedId meta a (d.Get "name"))))
        (assignCall codec meta a (d.Get "name") s).remote _ c hrt herr hnf
      rw [hreach, h]
      exact ⟨rfl, by simp [List.filter, Event.isSetId]⟩
  refine ⟨hmain.1, hmain.2, ?_, ?_⟩
  · rw [hreach]
    rfl
  · intro hsub hcanon hfmt
    have ha : NewApiOperationID a.SubscriptionId a.ResourceGroup a.ServiceName a.ApiName
        a.OperationName = a := rfl
    have hstr : codec.ApiOperationTagId_ID (derivedId meta a (d.Get "name"))
        = d.Get "api_operation_id" ++ "/tags/" ++ d.Get "name" := by
      rw [hfmt, hsub, ha, hcanon]
    rw [← hstr]
    exact hmain

/-- Witness of C7 amended: with `opIdA` declared and the client in `sub-a`,
Create against an empty recording remote leaves `tagIdA` stored, which is
`opIdA` followed by `/tags/acctest-Tag-123`, after a single `d.SetId`. -/
theorem create_persisted_identifier_witness :
    azureCodec.ApiOperationID ((declared opIdA "acctest-Tag-123").Get "api_operation_id")
        = .ok ⟨"sub-a", "rg1", "svc1", "my-api", "my-op"⟩
    ∧ (resourceApiManagementApiOperationTagCreate azureCodec (clientOf "sub-a" recordingClient)
        (declared opIdA "acctest-Tag-123") ⟨[], []⟩).d.Id = tagIdA
    ∧ (resourceApiManagementApiOperationTagCreate azureCodec (clientOf "sub-a" recordingClient)
        (declared opIdA "acctest-Tag-123") ⟨[], []⟩).events.filter Event.isSetId
        = [.SetId tagIdA]
    ∧ (resourceApiManagementApiOperationTagCreate azureCodec (clientOf "sub-a" recordingClient)
        (declared opIdA "acctest-Tag-123") ⟨[], []⟩).d.Id
        = (declared opIdA "acctest-Tag-123").Get "api_operation_id" ++ "/tags/"
          ++ (declared opIdA "acctest-Tag-123").Get "name"
    ∧ (resourceApiManagementApiOperationTagCreate azureCodec (clientOf "sub-a" scriptedClient)
        (declared opIdA "acctest-Tag-123")
        [(some 404, some "not found"), (some 404, some "not found"), (some 201, none),
         (some 500, some "server error")]).d.Id = tagIdA :=
  ⟨rfl,
   (create_persisted_identifier azureCodec (clientOf "sub-a" recordingClient)
      (declared opIdA "acctest-Tag-123") ⟨[], []⟩ ⟨"sub-a", "rg1", "svc1", "my-api", "my-op"⟩
      rfl rfl rfl rfl rfl (Or.inl rfl)).1,
   (create_persisted_identifier azureCodec (clientOf "sub-a" recordingClient)
      (declared opIdA "acctest-Tag-123") ⟨[], []⟩ ⟨"sub-a", "rg1", "svc1", "my-api", "my-op"⟩
      rfl rfl rfl rfl rfl (Or.inl rfl)).2.1,
   ((create_persisted_identifier azureCodec (clientOf "sub-a" recordingClient)
      (declared opIdA "acctest-Tag-123") ⟨[], []⟩ ⟨"sub-a", "rg1", "svc1", "my-api", "my-op"⟩
      rfl rfl rfl rfl rfl (Or.inl rfl)).2.2.2 rfl rfl rfl).1,
   (create_persisted_identifier azureCodec (clientOf "sub-a" scriptedClient)
      (declared opIdA "acctest-Tag-123")
      [(some 404, some "not found"), (some 404, some "not found"), (some 201, none),
       (some 500, some "server error")] ⟨"sub-a", "rg1", "svc1", "my-api", "my-op"⟩
      rfl rfl rfl rfl rfl (Or.inr rfl)).1⟩

/-- A Read that returns an error leaves the resource data unchanged and does
not call `d.SetId`. -/
theorem read_error_keeps {σ : Type} (codec : Codec) (meta : Client σ) (d : ResourceData)
    (s : σ) (e : Err) (h : (resourceApiManagementApiOperationTagRead codec meta d s).err = some e) :
    (resourceApiManagementApiOperationTagRead codec meta d s).d = d
    ∧ ∀ ev ∈ (resourceApiManagementApiOperationTagRead codec meta d s).events,
        ev.isSetId = false := by
  simp only [resourceApiManagementApiOperationTagRead] at h ⊢
  split
  · simp
  · split
    · split
      · simp_all
      · simp [Event.isSetId]
    · simp_all

/-- C8, refuted as stated: the remote answers not-found to both probes, accepts
AssignToOperation and then answers 500 to the GetByOperation of the final Read.
Create returns the error of that Read, and the stored identifier, empty before
the call, is now `tagIdA`. -/
theorem create_atomicity_counterexample :
    (resourceApiManagementApiOperationTagCreate azureCodec (clientOf "sub-a" scriptedClient)
        (declared opIdA "acctest-Tag-123")
        [(some 404, some "not found"), (some 404, some "not found"), (some 201, none),
         (some 500, some "server error")]).err
        = some (.retrieving ⟨"sub-a", "rg1", "svc1", "my-api", "my-op", "acctest-Tag-123"⟩
            "server error")
    ∧ (declared opIdA "acctest-Tag-123").Id = ""
    ∧ (resourceApiManagementApiOperationTagCreate azureCodec (clientOf "sub-a" scriptedClient)
        (declared opIdA "acctest-Tag-123")
        [(some 404, some "not found"), (some 404, some "not found"), (some 201, none),
         (some 500, some "server error")]).d.Id = tagIdA
    ∧ (resourceApiManagementApiOperationTagCreate azureCodec (clientOf "sub-a" scriptedClient)
        (declared opIdA "acctest-Tag-123")
        [(some 404, some "not found"), (some 404, some "not found"), (some 201, none),
         (some 500, some "server error")]).d.Id ≠ (declared opIdA "acctest-Tag-123").Id := by
  refine ⟨rfl, rfl, rfl, ?_⟩
  decide

/-- C8, amended. Create and the stored identifier: if Create returns an error,
then either the error arose before `d.SetId` (in parsing, a probe, the
import-required check or AssignToOperation), the resource data is unchanged
and `d.SetId` was never called; or every step up to AssignToOperation
succeeded, the error is the one returned by the final Read, and the resource
data is the original with the derived identifier stored. In every run, `d.SetId`
is called only when `api_operation_id` parsed and AssignToOperation returned no
error. -/
theorem create_error_identifier {σ : Type} (codec : Codec) (meta : Client σ)
    (d : ResourceData) (s : σ) :
    (∀ e : Err, (resourceApiManagementApiOperationTagCreate codec meta d s).err = some e →
      ((resourceApiManagementApiOperationTagCreate codec meta d s).d = d
        ∧ ∀ ev ∈ (resourceApiManagementApiOperationTagCreate codec meta d s).events,
            ev.isSetId = false)
      ∨ ∃ a : ApiOperationId, codec.ApiOperationID (d.Get "api_operation_id") = .ok a
          ∧ (assignCall codec meta a (d.Get "name") s).err = none
          ∧ (resourceApiManagementApiOperationTagRead codec meta
              (d.SetId (codec.ApiOperationTagId_ID (derivedId meta a (d.Get "name"))))
              (assignCall codec meta a (d.Get "name") s).remote).err = some e
          ∧ (resourceApiManagementApiOperationTagCreate codec meta d s).d
              = d.SetId (codec.ApiOperationTagId_ID (derivedId meta a (d.Get "name"))))
    ∧ ((∃ ev ∈ (resourceApiManagementApiOperationTagCreate codec meta d s).events,
          ev.isSetId = true) →
        ∃ a : ApiOperationId, codec.ApiOperationID (d.Get "api_operation_id") = .ok a
          ∧ (assignCall codec meta a (d.Get "name") s).err = none) := by
  cases hX : codec.ApiOperationID (d.Get "api_operation_id") with
  | error e0 =>
    simp [resourceApiManagementApiOperationTagCreate, hX]
  | ok a =>
    simp only [resourceApiManagementApiOperationTagCreate, hX, NewTagID_Name, assignCall,
      assignmentProbe, tagProbe, derivedId]
    split
    · simp [Event.isSetId]
    · split
      · simp [Event.isSetId]
      · split
        · simp [Event.isSetId]
        · split
          · simp [Event.isSetId]
          · rename_i h3
            refine ⟨?_, ?_⟩
            · intro e he
              right
              exact ⟨a, rfl, h3, he, (read_error_keeps codec meta _ _ e he).1⟩
            · intro _
              exact ⟨a, rfl, h3⟩

/-- Witness of C8 amended: with a scripted remote whose AssignToOperation fails,
Create returns that error and the first alternative holds; with one whose final
GetByOperation answers 500, Create returns the error of the Read, `d.SetId` was
called, and AssignToOperation had returned no error. -/
theorem create_error_identifier_witness :
    (resourceApiManagementApiOperationTagCreate azureCodec (clientOf "sub-a" scriptedClient)
        (declared opIdA "acctest-Tag-123")
        [(some 404, some "not found"), (some 404, some "not found"),
         (some 409, some "conflict")]).err
        = some (.assigning ⟨"sub-a", "rg1", "svc1", "my-api", "my-op", "acctest-Tag-123"⟩
            "conflict")
    ∧ (((resourceApiManagementApiOperationTagCreate azureCodec (clientOf "sub-a" scriptedClient)
          (declared opIdA "acctest-Tag-123")
          [(some 404, some "not found"), (some 404, some "not found"),
           (some 409, some "conflict")]).d = declared opIdA "acctest-Tag-123"
        ∧ ∀ ev ∈ (resourceApiManagementApiOperationTagCreate azureCodec
            (clientOf "sub-a" scriptedClient) (declared opIdA "acctest-Tag-123")
            [(some 404, some "not found"), (some 404, some "not found"),
             (some 409, some "conflict")]).events, ev.isSetId = false)
      ∨ ∃ a : ApiOperationId,
          azureCodec.ApiOperationID ((declared opIdA "acctest-Tag-123").Get "api_operation_id")
            = .ok a
          ∧ (assignCall azureCodec (clientOf "sub-a" scriptedClient) a
              ((declared opIdA "acctest-Tag-123").Get "name")
              [(some 404, some "not found"), (some 404, some "not found"),
               (some 409, some "conflict")]).err = none
          ∧ (resourceApiManagementApiOperationTagRead azureCodec (clientOf "sub-a" scriptedClient)
              ((declared opIdA "acctest-Tag-123").SetId (azureCodec.ApiOperationTagId_ID
                (derivedId (clientOf "sub-a" scriptedClient) a
                  ((declared opIdA "acctest-Tag-123").Get "name"))))
              (assignCall azureCodec (clientOf "sub-a" scriptedClient) a
                ((declared opIdA "acctest-Tag-123").Get "name")
                [(some 404, some "not found"), (some 404, some "not found"),
                 (some 409, some "conflict")]).remote).err
              = some (.assigning ⟨"sub-a", "rg1", "svc1", "my-api", "my-op", "acctest-Tag-123"⟩
                  "conflict")
          ∧ (resourceApiManagementApiOperationTagCreate azureCodec
              (clientOf "sub-a" scriptedClient) (declared opIdA "acctest-Tag-123")
              [(some 404, some "not found"), (some 404, some "not found"),
               (some 409, some "conflict")]).d
              = (declared opIdA "acctest-Tag-123").SetId (azureCodec.ApiOperationTagId_ID
                  (derivedId (clientOf "sub-a" scriptedClient) a
                    ((declared opIdA "acctest-Tag-123").Get "name"))))
    ∧ (∃ ev ∈ (resourceApiManagementApiOperationTagCreate azureCodec
          (clientOf "sub-a" scriptedClient) (declared opIdA "acctest-Tag-123")
          [(some 404, some "not found"), (some 404, some "not found"), (some 201, none),
           (some 500, some "server error")]).events, ev.isSetId = true)
    ∧ ∃ a : ApiOperationId,
        azureCodec.ApiOperationID ((declared opIdA "acctest-Tag-123").Get "api_operation_id")
          = .ok a
        ∧ (assignCall azureCodec (clientOf "sub-a" scriptedClient) a
            ((declared opIdA "acctest-Tag-123").Get "name")
            [(some 404, some "not found"), (some 404, some "not found"), (some 201, none),
             (some 500, some "server error")]).err = none :=
  ⟨rfl,
   (create_error_identifier azureCodec (clientOf "sub-a" scriptedClient)
      (declared opIdA "acctest-Tag-123")
      [(some 404, some "not found"), (some 404, some "not found"),
       (some 409, some "conflict")]).1 _ rfl,
   ⟨.SetId tagIdA, by decide, rfl⟩,
   (create_error_identifier azureCodec (clientOf "sub-a" scriptedClient)
      (declared opIdA "acctest-Tag-123")
      [(some 404, some "not found"), (some 404, some "not found"), (some 201, none),
       (some 500, some "server error")]).2 ⟨.SetId tagIdA, by decide, rfl⟩⟩

end ApiOperationTag
